import Mathlib

set_option maxRecDepth 20000

/-!
Shallow embedding of the NES emulator core of this repository
(TypeScript sources: `Cpu6502.ts`, `Memory.ts`, `Ppu.ts`, `PpuRegisters.ts`,
`Mapper0.ts`, `Mapper4.ts`, `Controller.ts`, and the driver in `main.ts`).

Conventions:
* `Uint8Array` byte stores are modelled as functions `Nat → Nat`; every read
  out of such an array is reduced `% 256`, matching the byte-valued invariant
  of `Uint8Array`, and every store masks the value exactly where the source
  masks it (or where the typed array itself truncates).
* JavaScript `x & 0xff` / `x & 0xffff` on non-negative values are `&&&` on `Nat`.
* JavaScript `(x - 1) & 0xff` (which wraps through -1) is `(x + 255) &&& 0xFF`.
* The `P` status register and flag masks are byte-ranged, so the JS clear
  `P &= ~flag` is modelled as `P &&& (0xFF ^^^ flag)`.
* Fallible code (`throw`) is modelled with `Except String`.
* The PPU scanline counter is an `Int` (the source uses -1 for pre-render).
-/

namespace NesEmu

/-- JS `(n - 1) & 0xff` (8-bit decrement with wrap through -1). -/
def dec8 (n : Nat) : Nat := (n + 255) &&& 0xFF

/-- JS `(n - 1) & 0xffff` (16-bit decrement with wrap through -1). -/
def dec16 (n : Nat) : Nat := (n + 0xFFFF) &&& 0xFFFF

/-- JS `(a - b) & 0xff` for byte-ranged operands (wraps through negatives). -/
def jsSub8 (a b : Nat) : Nat := ((a % 256) + 256 - (b % 256)) % 256

/-- Point update of a byte-array function. -/
def upd (f : Nat → Nat) (i v : Nat) : Nat → Nat := fun j => if j = i then v else f j

/-- Nametable mirroring modes (`Mirroring.ts`). -/
inductive Mirroring where
  | Horizontal
  | Vertical
  | FourScreen
deriving DecidableEq

/-! ## Mapper 0 (NROM) — `Mapper0.ts` -/

structure Mapper0State where
  prgRom : Nat → Nat
  prgLen : Nat
  prgRam : Nat → Nat
  chr : Nat → Nat
  chrIsRam : Bool
  mirroring : Mirroring

def Mapper0State.new (prgRom : Nat → Nat) (prgLen : Nat) (chrRom : Nat → Nat)
    (chrLen : Nat) (mir : Mirroring) : Mapper0State :=
  let chrIsRam := chrLen == 0
  { prgRom := prgRom, prgLen := prgLen, prgRam := fun _ => 0,
    chr := if chrIsRam then (fun _ => 0) else chrRom,
    chrIsRam := chrIsRam, mirroring := mir }

def Mapper0State.reset (m : Mapper0State) : Mapper0State :=
  { m with prgRam := fun _ => 0, chr := if m.chrIsRam then (fun _ => 0) else m.chr }

def Mapper0State.cpuRead (m : Mapper0State) (addr0 : Nat) : Nat :=
  let addr := addr0 &&& 0xFFFF
  if 0x6000 ≤ addr ∧ addr ≤ 0x7FFF then m.prgRam (addr - 0x6000) % 256
  else if 0x8000 ≤ addr then
    if m.prgLen = 0x4000 then m.prgRom ((addr - 0x8000) &&& 0x3FFF) % 256
    else m.prgRom ((addr - 0x8000) &&& 0x7FFF) % 256
  else 0

def Mapper0State.cpuWrite (m : Mapper0State) (addr0 value0 : Nat) : Mapper0State :=
  let addr := addr0 &&& 0xFFFF
  let value := value0 &&& 0xFF
  if 0x6000 ≤ addr ∧ addr ≤ 0x7FFF then
    { m with prgRam := upd m.prgRam (addr - 0x6000) value }
  else m

def Mapper0State.ppuRead (m : Mapper0State) (addr0 : Nat) : Nat :=
  let addr := addr0 &&& 0x3FFF
  if addr < 0x2000 then m.chr addr % 256 else 0

def Mapper0State.ppuWrite (m : Mapper0State) (addr0 value0 : Nat) : Mapper0State :=
  let addr := addr0 &&& 0x3FFF
  let value := value0 &&& 0xFF
  if addr < 0x2000 ∧ m.chrIsRam then { m with chr := upd m.chr addr value } else m

/-! ## Mapper 4 (MMC3) — `Mapper4.ts` (the full implementation with the
A12 low-streak filter, debounce cooldown and level-held IRQ pending flag). -/

structure Mapper4State where
  prgRom : Nat → Nat
  chr : Nat → Nat
  chrIsRam : Bool
  prgRam : Nat → Nat
  prgRamEnable : Bool
  prgRamWriteProtect : Bool
  mirroring : Mirroring
  bankSelect : Nat
  bankRegs : Nat → Nat
  prgMode : Nat
  chrMode : Nat
  prgBankCount : Nat
  chrBankCount1k : Nat
  prgFixedLast : Nat
  prgFixedSecondLast : Nat
  prgMap : Nat → Nat
  chrMap1k : Nat → Nat
  irqLatch : Nat
  irqCounter : Nat
  irqReload : Bool
  irqEnabled : Bool
  irqPending : Bool
  lastA12 : Nat
  a12LowStreak : Nat
  a12Cooldown : Nat

def Mapper4State.new (prgRom : Nat → Nat) (prgLen : Nat) (chrRom : Nat → Nat)
    (chrLen : Nat) (mir : Mirroring) : Mapper4State :=
  let chrIsRam := chrLen == 0
  let chrLenEff := if chrIsRam then 8 * 1024 else chrLen
  let prgBankCount := prgLen >>> 13
  { prgRom := prgRom,
    chr := if chrIsRam then (fun _ => 0) else chrRom,
    chrIsRam := chrIsRam,
    prgRam := fun _ => 0, prgRamEnable := true, prgRamWriteProtect := false,
    mirroring := mir,
    bankSelect := 0, bankRegs := fun _ => 0, prgMode := 0, chrMode := 0,
    prgBankCount := prgBankCount,
    chrBankCount1k := chrLenEff >>> 10,
    prgFixedLast := prgBankCount - 1,
    prgFixedSecondLast := prgBankCount - 2,
    prgMap := fun _ => 0, chrMap1k := fun _ => 0,
    irqLatch := 0, irqCounter := 0, irqReload := false,
    irqEnabled := false, irqPending := false,
    lastA12 := 0, a12LowStreak := 0, a12Cooldown := 0 }

def Mapper4State.recomputePrgMap (m : Mapper4State) : Mapper4State :=
  if m.prgBankCount = 0 then { m with prgMap := fun _ => 0 }
  else
    let r6 := m.bankRegs 6 % m.prgBankCount
    let r7 := m.bankRegs 7 % m.prgBankCount
    if m.prgMode = 0 then
      { m with prgMap := (fun w =>
          if w = 0 then r6 else if w = 1 then r7
          else if w = 2 then m.prgFixedSecondLast else m.prgFixedLast) }
    else
      { m with prgMap := (fun w =>
          if w = 0 then m.prgFixedSecondLast else if w = 1 then r7
          else if w = 2 then r6 else m.prgFixedLast) }

def Mapper4State.recomputeChrMap (m : Mapper4State) : Mapper4State :=
  if m.chrBankCount1k = 0 then { m with chrMap1k := fun _ => 0 }
  else
    let r0 := (m.bankRegs 0 &&& 0xFE) % m.chrBankCount1k
    let r1 := (m.bankRegs 1 &&& 0xFE) % m.chrBankCount1k
    if m.chrMode = 0 then
      { m with chrMap1k := (fun w =>
          if w = 0 then r0 else if w = 1 then (r0 + 1) % m.chrBankCount1k
          else if w = 2 then r1 else if w = 3 then (r1 + 1) % m.chrBankCount1k
          else if w = 4 then m.bankRegs 2 % m.chrBankCount1k
          else if w = 5 then m.bankRegs 3 % m.chrBankCount1k
          else if w = 6 then m.bankRegs 4 % m.chrBankCount1k
          else m.bankRegs 5 % m.chrBankCount1k) }
    else
      { m with chrMap1k := (fun w =>
          if w = 0 then m.bankRegs 2 % m.chrBankCount1k
          else if w = 1 then m.bankRegs 3 % m.chrBankCount1k
          else if w = 2 then m.bankRegs 4 % m.chrBankCount1k
          else if w = 3 then m.bankRegs 5 % m.chrBankCount1k
          else if w = 4 then r0 else if w = 5 then (r0 + 1) % m.chrBankCount1k
          else if w = 6 then r1 else (r1 + 1) % m.chrBankCount1k) }

def Mapper4State.reset (m0 : Mapper4State) : Mapper4State :=
  let m := { m0 with
    prgRam := fun _ => 0,
    chr := if m0.chrIsRam then (fun _ => 0) else m0.chr,
    bankSelect := 0, bankRegs := fun _ => 0, prgMode := 0, chrMode := 0,
    irqLatch := 0, irqCounter := 0, irqReload := false,
    irqEnabled := false, irqPending := false,
    lastA12 := 0, a12LowStreak := 0, a12Cooldown := 0 }
  let r6v := (if 1 < m.prgBankCount then m.prgBankCount - 2 else 0) % max 1 m.prgBankCount
  let r7v := (if 1 < m.prgBankCount then m.prgBankCount - 1 else 0) % max 1 m.prgBankCount
  let m :=
    if 0 < m.prgBankCount then
      { m with bankRegs := upd (upd m.bankRegs 6 r6v) 7 r7v }
    else
      { m with bankRegs := upd (upd m.bankRegs 6 0) 7 0 }
  m.recomputePrgMap.recomputeChrMap

def Mapper4State.cpuRead (m : Mapper4State) (addr0 : Nat) : Nat :=
  let addr := addr0 &&& 0xFFFF
  if 0x6000 ≤ addr ∧ addr ≤ 0x7FFF then
    if !m.prgRamEnable then 0 else m.prgRam (addr - 0x6000) % 256
  else if 0x8000 ≤ addr then
    if m.prgBankCount = 0 then 0
    else
      let window := (addr - 0x8000) >>> 13
      let bank := m.prgMap window % m.prgBankCount
      m.prgRom ((bank <<< 13) ||| (addr &&& 0x1FFF)) % 256
  else 0

def Mapper4State.cpuWrite (m : Mapper4State) (addr0 value0 : Nat) : Mapper4State :=
  let addr := addr0 &&& 0xFFFF
  let value := value0 &&& 0xFF
  if 0x6000 ≤ addr ∧ addr ≤ 0x7FFF then
    if !m.prgRamEnable || m.prgRamWriteProtect then m
    else { m with prgRam := upd m.prgRam (addr - 0x6000) value }
  else if 0x8000 ≤ addr ∧ addr ≤ 0x9FFF then
    if addr &&& 1 = 0 then
      (({ m with bankSelect := value &&& 0x07,
                 prgMode := (value >>> 6) &&& 1,
                 chrMode := (value >>> 7) &&& 1 }).recomputePrgMap).recomputeChrMap
    else
      let m1 := { m with bankRegs := upd m.bankRegs m.bankSelect (value &&& 0xFF) }
      if m1.bankSelect = 6 ∨ m1.bankSelect = 7 then
        let normBank := m1.bankRegs m1.bankSelect % m1.prgBankCount
        let m2 :=
          if 0 < m1.prgBankCount then
            { m1 with bankRegs := upd m1.bankRegs m1.bankSelect normBank }
          else { m1 with bankRegs := upd m1.bankRegs m1.bankSelect 0 }
        m2.recomputePrgMap
      else m1.recomputeChrMap
  else if 0xA000 ≤ addr ∧ addr ≤ 0xBFFF then
    if addr &&& 1 = 0 then
      { m with mirroring := if value &&& 1 != 0 then Mirroring.Vertical else Mirroring.Horizontal }
    else
      { m with prgRamWriteProtect := value &&& 0x40 != 0, prgRamEnable := value &&& 0x80 != 0 }
  else if 0xC000 ≤ addr ∧ addr ≤ 0xDFFF then
    if addr &&& 1 = 0 then { m with irqLatch := value &&& 0xFF }
    else { m with irqReload := true, irqCounter := 0 }
  else if 0xE000 ≤ addr then
    if addr &&& 1 = 0 then { m with irqEnabled := false, irqPending := false }
    else { m with irqEnabled := true }
  else m

/-- MMC3 IRQ counter clock (reload-or-decrement; pending raised when the
counter reaches 0 by counting, or right after a reload only when latch = 0). -/
def Mapper4State.clockIrqCounter (m : Mapper4State) : Mapper4State :=
  let reload := m.irqReload || (m.irqCounter == 0)
  let m1 :=
    if reload then { m with irqCounter := m.irqLatch &&& 0xFF, irqReload := false }
    else { m with irqCounter := (m.irqCounter - 1) &&& 0xFF }
  if m1.irqEnabled && (m1.irqCounter == 0) && (!reload || (m.irqLatch == 0)) then
    { m1 with irqPending := true }
  else m1

/-- A12 filter: the returned `Bool` records whether this access produced a
qualifying rising edge (i.e. whether `clockIrqCounter` was invoked). -/
def Mapper4State.trackA12 (m : Mapper4State) (addr : Nat) : Mapper4State × Bool :=
  let a12 : Nat := if addr &&& 0x1000 ≠ 0 then 1 else 0
  let cd := if 0 < m.a12Cooldown then m.a12Cooldown - 1 else m.a12Cooldown
  let streak := if a12 = 0 then m.a12LowStreak + 1 else m.a12LowStreak
  if m.lastA12 = 0 ∧ a12 = 1 then
    if 8 ≤ streak ∧ cd = 0 then
      ({ m.clockIrqCounter with a12Cooldown := 8, a12LowStreak := 0, lastA12 := a12 }, true)
    else
      ({ m with a12Cooldown := cd, a12LowStreak := 0, lastA12 := a12 }, false)
  else
    ({ m with a12Cooldown := cd, a12LowStreak := streak, lastA12 := a12 }, false)

def Mapper4State.ppuRead (m0 : Mapper4State) (addr0 : Nat) : Nat × Mapper4State × Bool :=
  let addr := addr0 &&& 0x3FFF
  if addr < 0x2000 then
    let (m, clk) := m0.trackA12 addr
    if m.chrBankCount1k = 0 then (0, m, clk)
    else
      let bank1k := (addr >>> 10) &&& 7
      let bank := m.chrMap1k bank1k % m.chrBankCount1k
      (m.chr ((bank <<< 10) ||| (addr &&& 0x3FF)) % 256, m, clk)
  else (0, m0, false)

def Mapper4State.ppuWrite (m0 : Mapper4State) (addr0 value0 : Nat) : Mapper4State × Bool :=
  let addr := addr0 &&& 0x3FFF
  let value := value0 &&& 0xFF
  if addr < 0x2000 then
    let (m, clk) := m0.trackA12 addr
    if !m.chrIsRam then (m, clk)
    else if m.chrBankCount1k = 0 then (m, clk)
    else
      let bank1k := (addr >>> 10) &&& 7
      let bank := m.chrMap1k bank1k % m.chrBankCount1k
      ({ m with chr := upd m.chr ((bank <<< 10) ||| (addr &&& 0x3FF)) value }, clk)
  else (m0, false)

/-- `consumeIrq` of the final `Mapper4.ts`: level-held, does not clear here. -/
def Mapper4State.consumeIrq (m : Mapper4State) : Bool := m.irqPending

/-! ## Mapper dispatch (the `Mapper` interface over the variants the
claims exercise). The extra `Bool` on the PPU-side taps is derived
instrumentation: it is `true` exactly when the access clocked the MMC3
IRQ counter. -/

inductive Mapper where
  | m0 : Mapper0State → Mapper
  | m4 : Mapper4State → Mapper

def Mapper.reset : Mapper → Mapper
  | .m0 s => .m0 s.reset
  | .m4 s => .m4 s.reset

def Mapper.getMirroring : Mapper → Mirroring
  | .m0 s => s.mirroring
  | .m4 s => s.mirroring

def Mapper.cpuRead : Mapper → Nat → Nat
  | .m0 s, a => s.cpuRead a
  | .m4 s, a => s.cpuRead a

def Mapper.cpuWrite : Mapper → Nat → Nat → Mapper
  | .m0 s, a, v => .m0 (s.cpuWrite a v)
  | .m4 s, a, v => .m4 (s.cpuWrite a v)

def Mapper.ppuRead : Mapper → Nat → Nat × Mapper × Bool
  | .m0 s, a => (s.ppuRead a, .m0 s, false)
  | .m4 s, a => let (v, s1, c) := s.ppuRead a; (v, .m4 s1, c)

def Mapper.ppuWrite : Mapper → Nat → Nat → Mapper × Bool
  | .m0 s, a, v => (.m0 (s.ppuWrite a v), false)
  | .m4 s, a, v => let (s1, c) := s.ppuWrite a v; (.m4 s1, c)

/-! ## PPU — `PpuRegisters.ts` and `Ppu.ts` (the full version with loopy
v/t/x/w state and the per-scanline synthesized A12 edge). -/

structure PpuRegisters where
  ppuctrl : Nat
  ppumask : Nat
  ppustatus : Nat
  oamaddr : Nat
  ppuscroll : Nat
  ppuaddr : Nat
  ppudata : Nat
  nmiOccurred : Bool
  nmiEnabled : Bool
  v : Nat
  t : Nat
  x : Nat
  w : Bool

def PpuRegisters.new : PpuRegisters :=
  { ppuctrl := 0, ppumask := 0, ppustatus := 0, oamaddr := 0,
    ppuscroll := 0, ppuaddr := 0, ppudata := 0,
    nmiOccurred := false, nmiEnabled := false,
    v := 0, t := 0, x := 0, w := false }

structure Ppu where
  registers : PpuRegisters
  ciram : Nat → Nat
  oam : Nat → Nat
  palettes : Nat → Nat
  scanline : Int
  cycle : Nat
  vramBuffer : Nat
  a12EdgeDoneThisScanline : Bool

def Ppu.new : Ppu :=
  { registers := PpuRegisters.new, ciram := fun _ => 0, oam := fun _ => 0,
    palettes := fun _ => 0, scanline := 0, cycle := 0, vramBuffer := 0,
    a12EdgeDoneThisScanline := false }

/-- Nametable address resolution (0x2000-0x2FFF → CIRAM index, per the
mapper's mirroring; `none`/four-screen fall back to vertical). -/
def Ppu.resolveNametableAddr (mp : Option Mapper) (addr : Nat) : Nat :=
  let base := (addr - 0x2000) &&& 0x0FFF
  let table := base >>> 10
  let offset := base &&& 0x03FF
  match mp.map Mapper.getMirroring with
  | some Mirroring.Vertical => ((table &&& 1) * 0x400) ||| offset
  | some Mirroring.Horizontal => ((table >>> 1) * 0x400) ||| offset
  | some Mirroring.FourScreen => ((table &&& 1) * 0x400) ||| offset
  | none => ((table &&& 1) * 0x400) ||| offset

/-- Palette index resolution with the `$3F10/$3F14/$3F18/$3F1C` mirrors. -/
def Ppu.resolvePaletteAddr (addr : Nat) : Nat :=
  let a0 := 0x3F00 + ((addr - 0x3F00) &&& 0x1F)
  let a1 := if a0 = 0x3F10 then 0x3F00 else a0
  let a2 := if a1 = 0x3F14 then 0x3F04 else a1
  let a3 := if a2 = 0x3F18 then 0x3F08 else a2
  let a4 := if a3 = 0x3F1C then 0x3F0C else a3
  a4 &&& 0x1F

/-- PPU address-space read. The trailing `Bool` is the derived A12-clock flag
of a pattern-table access (always `false` outside `$0000-$1FFF`). -/
def Ppu.readPpuMemory (p : Ppu) (mp : Option Mapper) (addr0 : Nat) :
    Nat × Option Mapper × Bool :=
  let addr := addr0 &&& 0x3FFF
  if addr < 0x2000 then
    match mp with
    | some m => (let (v, m1, c) := m.ppuRead addr; (v, some m1, c))
    | none => (0, none, false)
  else if addr < 0x3F00 then
    (p.ciram (Ppu.resolveNametableAddr mp addr) % 256, mp, false)
  else
    (p.palettes (Ppu.resolvePaletteAddr addr) % 256, mp, false)

def Ppu.writePpuMemory (p : Ppu) (mp : Option Mapper) (addr0 value0 : Nat) :
    Ppu × Option Mapper × Bool :=
  let addr := addr0 &&& 0x3FFF
  let value := value0 &&& 0xFF
  if addr < 0x2000 then
    match mp with
    | some m => (let (m1, c) := m.ppuWrite addr value; (p, some m1, c))
    | none => (p, none, false)
  else if addr < 0x3F00 then
    ({ p with ciram := upd p.ciram (Ppu.resolveNametableAddr mp addr) value }, mp, false)
  else
    let pal := Ppu.resolvePaletteAddr addr
    let p1 := { p with palettes := upd p.palettes pal value }
    if pal &&& 0x03 = 0 then
      ({ p1 with palettes := upd p1.palettes ((pal + 0x10) &&& 0x1F) value }, mp, false)
    else (p1, mp, false)

/-- `v` increment after a `$2007` access (+1 or +32 per PPUCTRL bit 2). -/
def Ppu.incrementV (p : Ppu) : Ppu :=
  let add := if p.registers.ppuctrl &&& 0x04 ≠ 0 then 32 else 1
  { p with registers := { p.registers with v := (p.registers.v + add) &&& 0x7FFF } }

/-- Buffered `$2007` read (palette reads bypass the buffer). -/
def Ppu.readPpuData (p : Ppu) (mp : Option Mapper) : Nat × Ppu × Option Mapper :=
  let vAddr := p.registers.v &&& 0x3FFF
  if vAddr < 0x3F00 then
    let value := p.vramBuffer
    let (nv, mp1, _) := p.readPpuMemory mp vAddr
    let p1 := { p with vramBuffer := nv }
    (value, p1.incrementV, mp1)
  else
    let (value, mp1, _) := p.readPpuMemory mp vAddr
    let (nv, mp2, _) := p.readPpuMemory mp1 ((vAddr - 0x1000) &&& 0x3FFF)
    let p1 := { p with vramBuffer := nv }
    (value, p1.incrementV, mp2)

def Ppu.writePpuData (p : Ppu) (mp : Option Mapper) (value : Nat) : Ppu × Option Mapper :=
  let vAddr := p.registers.v &&& 0x3FFF
  let (p1, mp1, _) := p.writePpuMemory mp vAddr value
  (p1.incrementV, mp1)

/-- CPU-visible register read (`$2000-$2007`, pre-mirrored by the bus). -/
def Ppu.readRegister (p : Ppu) (mp : Option Mapper) (addr : Nat) :
    Nat × Ppu × Option Mapper :=
  let reg := 0x2000 ||| (addr &&& 0x0007)
  if reg = 0x2002 then
    let status := p.registers.ppustatus
    let r := { p.registers with
      ppustatus := p.registers.ppustatus &&& 0x7F,
      w := false, nmiOccurred := false }
    (status &&& 0xE0, { p with registers := r }, mp)
  else if reg = 0x2004 then
    (p.oam (p.registers.oamaddr &&& 0xFF) % 256, p, mp)
  else if reg = 0x2007 then
    p.readPpuData mp
  else (0, p, mp)

/-- CPU-visible register write (`$2000-$2007`, pre-mirrored by the bus). -/
def Ppu.writeRegister (p : Ppu) (mp : Option Mapper) (addr value0 : Nat) :
    Ppu × Option Mapper :=
  let reg := 0x2000 ||| (addr &&& 0x0007)
  let value := value0 &&& 0xFF
  if reg = 0x2000 then
    let r := { p.registers with
      ppuctrl := value,
      nmiEnabled := value &&& 0x80 != 0,
      t := (p.registers.t &&& 0x73FF) ||| ((value &&& 0x03) <<< 10) }
    ({ p with registers := r }, mp)
  else if reg = 0x2001 then
    ({ p with registers := { p.registers with ppumask := value } }, mp)
  else if reg = 0x2003 then
    ({ p with registers := { p.registers with oamaddr := value } }, mp)
  else if reg = 0x2004 then
    let p1 := { p with oam := upd p.oam (p.registers.oamaddr &&& 0xFF) value }
    ({ p1 with registers := { p1.registers with oamaddr := (p1.registers.oamaddr + 1) &&& 0xFF } }, mp)
  else if reg = 0x2005 then
    if !p.registers.w then
      let r := { p.registers with
        x := value &&& 0x07,
        t := (p.registers.t &&& 0x7FE0) ||| ((value >>> 3) &&& 0x1F),
        ppuscroll := (p.registers.ppuscroll &&& 0xFF00) ||| value,
        w := true }
      ({ p with registers := r }, mp)
    else
      let coarseY := (value >>> 3) &&& 0x1F
      let fineY := value &&& 0x07
      let r := { p.registers with
        t := (p.registers.t &&& 0x0C1F) ||| ((coarseY &&& 0x1F) <<< 5) ||| ((fineY &&& 0x07) <<< 12),
        ppuscroll := (p.registers.ppuscroll &&& 0x00FF) ||| (value <<< 8),
        w := false }
      ({ p with registers := r }, mp)
  else if reg = 0x2006 then
    if !p.registers.w then
      let t1 := ((p.registers.t &&& 0x00FF) ||| ((value &&& 0x3F) <<< 8)) &&& 0x7FFF
      let r := { p.registers with
        t := t1,
        ppuaddr := (p.registers.ppuaddr &&& 0x00FF) ||| (value <<< 8),
        w := true }
      ({ p with registers := r }, mp)
    else
      let t1 := (p.registers.t &&& 0x7F00) ||| value
      let r := { p.registers with
        t := t1, v := t1 &&& 0x7FFF,
        ppuaddr := (p.registers.ppuaddr &&& 0xFF00) ||| value,
        w := false }
      ({ p with registers := r }, mp)
  else if reg = 0x2007 then
    p.writePpuData mp value
  else (p, mp)

/-- Copy of the horizontal loopy bits t→v (mask `0x041F`). -/
def Ppu.copyHorizontalBits (p : Ppu) : Ppu :=
  { p with registers := { p.registers with
      v := (p.registers.v &&& 0x7BE0) ||| (p.registers.t &&& 0x041F) } }

/-- Copy of the vertical loopy bits t→v (mask `0x7BE0`). -/
def Ppu.copyVerticalBits (p : Ppu) : Ppu :=
  { p with registers := { p.registers with
      v := (p.registers.v &&& 0x041F) ||| (p.registers.t &&& 0x7BE0) } }

/-- One iteration of the 16 low pattern reads `Ppu.step` issues before the
rising-edge read (`addr = (0x0000 + ((i * 2) & 0x0FFE)) & 0x1FFF`, which has
A12 low for `i < 16`), accumulating the number of IRQ clocks it caused. -/
def Ppu.synthLowStep (acc : Mapper × Nat) (i : Nat) : Mapper × Nat :=
  let r := Mapper.ppuRead acc.1 ((0x0000 + ((i * 2) &&& 0x0FFE)) &&& 0x1FFF)
  (r.2.1, acc.2 + (if r.2.2 then 1 else 0))

/-- The 16 pattern-table reads with A12 low that `Ppu.step` issues before the
rising-edge read, accumulating the number of IRQ clocks they caused. -/
def Ppu.synthLowReads (m : Mapper) : Mapper × Nat :=
  (List.range 16).foldl Ppu.synthLowStep (m, 0)

/-- The A12-edge synthesis phase of `Ppu.step`: on a visible scanline with BG
rendering on and the per-scanline edge not yet delivered, issue 16 A12-low
pattern reads and one `$1000` read to the mapper, counting IRQ clocks. -/
def Ppu.stepSynth (p : Ppu) (mp0 : Option Mapper) : Ppu × Option Mapper × Nat :=
  if (0 : Int) ≤ p.scanline ∧ p.scanline ≤ (239 : Int) then
    let bgOn := p.registers.ppumask &&& 0x08 != 0
    if bgOn && !p.a12EdgeDoneThisScanline then
      match mp0 with
      | some m =>
        let (m1, n) := Ppu.synthLowReads m
        let r := Mapper.ppuRead m1 0x1000
        ({ p with a12EdgeDoneThisScanline := true }, some r.2.1,
          n + (if r.2.2 then 1 else 0))
      | none => (p, mp0, 0)
    else (p, mp0, 0)
  else (p, mp0, 0)

/-- The end-of-scanline wrap of `Ppu.step`: advance the scanline, set
VBlank/NMI on entering scanline 241, clear VBlank and return to the
pre-render line after scanline 260, and apply the simplified loopy copies. -/
def Ppu.stepWrap (p1 : Ppu) : Ppu :=
  let p2 := { p1 with cycle := 0, scanline := p1.scanline + 1 }
  let p3 :=
    if p2.scanline = (241 : Int) then
      let r := { p2.registers with ppustatus := p2.registers.ppustatus ||| 0x80 }
      let r := if r.nmiEnabled then { r with nmiOccurred := true } else r
      { p2 with registers := r }
    else p2
  let p4 := { p3 with a12EdgeDoneThisScanline := false }
  let p5 :=
    if (261 : Int) ≤ p4.scanline then
      { p4 with
        scanline := -1,
        registers := { p4.registers with ppustatus := p4.registers.ppustatus &&& 0x7F } }
    else p4
  let bgOn := p5.registers.ppumask &&& 0x08 != 0
  if p5.scanline = (-1 : Int) then (if bgOn then p5.copyVerticalBits else p5)
  else if (0 : Int) ≤ p5.scanline ∧ p5.scanline ≤ (239 : Int) then
    (if bgOn then p5.copyHorizontalBits else p5)
  else p5

/-- One PPU sub-cycle (`Ppu.step` of `Ppu.ts`): synthesizes one A12 rising
edge per visible scanline while BG is on, advances cycle/scanline counters,
sets VBlank/NMI at scanline 241, clears VBlank when wrapping to the
pre-render line, and applies the simplified loopy copies. The returned `Nat`
counts the MMC3 IRQ clocks produced during this sub-cycle. -/
def Ppu.step (p0 : Ppu) (mp0 : Option Mapper) : Ppu × Option Mapper × Nat :=
  let p := { p0 with cycle := p0.cycle + 1 }
  let r := Ppu.stepSynth p mp0
  if 341 ≤ r.1.cycle then (Ppu.stepWrap r.1, r.2.1, r.2.2) else r

def Ppu.isNmiOccurred (p : Ppu) : Bool := p.registers.nmiOccurred

def Ppu.clearNmi (p : Ppu) : Ppu :=
  { p with registers := { p.registers with nmiOccurred := false } }

def Ppu.reset (_p : Ppu) : Ppu := Ppu.new

/-! ## Bus — `Memory.ts` (the version present under `src/memory`): RAM with
mirroring, PPU register window, a stubbed `$4000-$401F` APU/IO range, and
mapper delegation from `$6000`. -/

structure Memory where
  ram : Nat → Nat
  ppu : Ppu
  mapper : Option Mapper

def Memory.new : Memory := { ram := fun _ => 0, ppu := Ppu.new, mapper := none }

def Memory.attachMapper (m : Memory) (mp : Mapper) : Memory :=
  { m with mapper := some mp.reset }

def Memory.read (m : Memory) (addr0 : Nat) : Nat × Memory :=
  let addr := addr0 &&& 0xFFFF
  if addr < 0x2000 then (m.ram (addr % 0x0800) % 256, m)
  else if 0x2000 ≤ addr ∧ addr ≤ 0x3FFF then
    let reg := 0x2000 ||| (addr &&& 0x0007)
    let r := m.ppu.readRegister m.mapper reg
    (r.1, { m with ppu := r.2.1, mapper := r.2.2 })
  else if 0x4000 ≤ addr ∧ addr ≤ 0x4017 then (0, m)
  else if 0x4018 ≤ addr ∧ addr ≤ 0x401F then (0, m)
  else
    match m.mapper with
    | some mp => if 0x6000 ≤ addr then (mp.cpuRead addr, m) else (0, m)
    | none => (0, m)

def Memory.write (m : Memory) (addr0 value0 : Nat) : Memory :=
  let addr := addr0 &&& 0xFFFF
  let value := value0 &&& 0xFF
  if addr < 0x2000 then { m with ram := upd m.ram (addr % 0x0800) value }
  else if 0x2000 ≤ addr ∧ addr ≤ 0x3FFF then
    let reg := 0x2000 ||| (addr &&& 0x0007)
    let r := m.ppu.writeRegister m.mapper reg value
    { m with ppu := r.1, mapper := r.2 }
  else if 0x4000 ≤ addr ∧ addr ≤ 0x4017 then m
  else if 0x4018 ≤ addr ∧ addr ≤ 0x401F then m
  else
    match m.mapper with
    | some mp => if 0x6000 ≤ addr then { m with mapper := some (mp.cpuWrite addr value) } else m
    | none => m

/-! ## Controller — `Controller.ts` (strobe/shift protocol). -/

structure ButtonsState where
  btnA : Bool
  btnB : Bool
  btnSelect : Bool
  btnStart : Bool
  btnUp : Bool
  btnDown : Bool
  btnLeft : Bool
  btnRight : Bool

structure Controller where
  strobe : Bool
  shiftIndex : Nat
  latchedByte : Nat
  buttons : ButtonsState

/-- Pack the 8 buttons into a byte: bit0=A, 1=B, 2=Select, 3=Start, 4=Up,
5=Down, 6=Left, 7=Right. -/
def Controller.packButtons (c : Controller) : Nat :=
  let b0 := if c.buttons.btnA then 1 <<< 0 else 0
  let b1 := if c.buttons.btnB then 1 <<< 1 else 0
  let b2 := if c.buttons.btnSelect then 1 <<< 2 else 0
  let b3 := if c.buttons.btnStart then 1 <<< 3 else 0
  let b4 := if c.buttons.btnUp then 1 <<< 4 else 0
  let b5 := if c.buttons.btnDown then 1 <<< 5 else 0
  let b6 := if c.buttons.btnLeft then 1 <<< 6 else 0
  let b7 := if c.buttons.btnRight then 1 <<< 7 else 0
  (b0 ||| b1 ||| b2 ||| b3 ||| b4 ||| b5 ||| b6 ||| b7) &&& 0xFF

def Controller.writeStrobe (c : Controller) (value : Nat) : Controller :=
  let newStrobe := value &&& 1 != 0
  if newStrobe then
    { c with strobe := true, latchedByte := c.packButtons, shiftIndex := 0 }
  else
    let c1 :=
      if c.strobe && !newStrobe then
        { c with latchedByte := c.packButtons, shiftIndex := 0 }
      else c
    { c1 with strobe := false }

def Controller.readBit (c : Controller) : Nat × Controller :=
  if c.strobe then ((if c.buttons.btnA then 1 else 0), c)
  else if c.shiftIndex < 8 then
    ((c.latchedByte >>> c.shiftIndex) &&& 1, { c with shiftIndex := c.shiftIndex + 1 })
  else (1, c)

/-- Perform `n` successive serial reads, collecting the bits in order. -/
def Controller.readBits (c : Controller) : Nat → List Nat × Controller
  | 0 => ([], c)
  | n + 1 =>
    let (b, c1) := c.readBit
    let (rest, c2) := c1.readBits n
    (b :: rest, c2)

/-! ## CPU — `Flags6502.ts` and the full `Cpu6502.ts` (all documented
opcodes, the SLO family, unofficial NOPs, KIL/JAM as explicit failures). -/

namespace Flags6502

def Carry : Nat := 1
def Zero : Nat := 2
def InterruptDisable : Nat := 4
def Decimal : Nat := 8
def Break : Nat := 16
def Unused : Nat := 32
def Overflow : Nat := 64
def Negative : Nat := 128

end Flags6502

structure Cpu6502 where
  A : Nat
  X : Nat
  Y : Nat
  P : Nat
  SP : Nat
  PC : Nat

/-- Field initializers of the `Cpu6502` class. -/
def Cpu6502.new : Cpu6502 := { A := 0, X := 0, Y := 0, P := 0x24, SP := 0xFD, PC := 0 }

def Cpu6502.getFlag (c : Cpu6502) (flag : Nat) : Bool := c.P &&& flag != 0

def Cpu6502.setFlag (c : Cpu6502) (flag : Nat) (value : Bool) : Cpu6502 :=
  if value then { c with P := c.P ||| flag } else { c with P := c.P &&& (0xFF ^^^ flag) }

/-- A CPU together with the bus it reads and writes through. -/
structure Mach where
  cpu : Cpu6502
  mem : Memory

def readMem (s : Mach) (addr : Nat) : Nat × Mach :=
  let r := s.mem.read addr
  (r.1, { s with mem := r.2 })

def writeMem (s : Mach) (addr v : Nat) : Mach :=
  { s with mem := s.mem.write addr v }

def push (s : Mach) (value : Nat) : Mach :=
  let s1 := writeMem s (0x0100 + (s.cpu.SP &&& 0xFF)) (value &&& 0xFF)
  { s1 with cpu := { s1.cpu with SP := dec8 s1.cpu.SP } }

def pull (s : Mach) : Nat × Mach :=
  let s1 := { s with cpu := { s.cpu with SP := (s.cpu.SP + 1) &&& 0xFF } }
  let (v, s2) := readMem s1 (0x0100 + (s1.cpu.SP &&& 0xFF))
  (v &&& 0xFF, s2)

def setZN (s : Mach) (v : Nat) : Mach :=
  let c := s.cpu.setFlag Flags6502.Zero ((v &&& 0xFF) == 0)
  let c := c.setFlag Flags6502.Negative ((v &&& 0x80) != 0)
  { s with cpu := c }

def fetchByte (s : Mach) : Nat × Mach :=
  let (v, s1) := readMem s s.cpu.PC
  ((v &&& 0xFF), { s1 with cpu := { s1.cpu with PC := (s1.cpu.PC + 1) &&& 0xFFFF } })

def fetchWord (s : Mach) : Nat × Mach :=
  let (lo, s1) := fetchByte s
  let (hi, s2) := fetchByte s1
  (((hi <<< 8) ||| lo) &&& 0xFFFF, s2)

def zpAddr (s : Mach) : Nat × Mach :=
  let (v, s1) := fetchByte s
  (v &&& 0xFF, s1)

def zpXAddr (s : Mach) : Nat × Mach :=
  let (v, s1) := fetchByte s
  ((v + s1.cpu.X) &&& 0xFF, s1)

def zpYAddr (s : Mach) : Nat × Mach :=
  let (v, s1) := fetchByte s
  ((v + s1.cpu.Y) &&& 0xFF, s1)

def absAddr (s : Mach) : Nat × Mach := fetchWord s

def absXAddr (s : Mach) : Nat × Mach :=
  let (base, s1) := fetchWord s
  ((base + s1.cpu.X) &&& 0xFFFF, s1)

def absYAddr (s : Mach) : Nat × Mach :=
  let (base, s1) := fetchWord s
  ((base + s1.cpu.Y) &&& 0xFFFF, s1)

def indXAddr (s : Mach) : Nat × Mach :=
  let (z, s1) := fetchByte s
  let zp := (z + s1.cpu.X) &&& 0xFF
  let (lo, s2) := readMem s1 zp
  let (hi, s3) := readMem s2 ((zp + 1) &&& 0xFF)
  ((((hi &&& 0xFF) <<< 8) ||| (lo &&& 0xFF)) &&& 0xFFFF, s3)

def indYAddr (s : Mach) : Nat × Mach :=
  let (z, s1) := fetchByte s
  let zp := z &&& 0xFF
  let (lo, s2) := readMem s1 zp
  let (hi, s3) := readMem s2 ((zp + 1) &&& 0xFF)
  (((((hi &&& 0xFF) <<< 8) ||| (lo &&& 0xFF)) + s3.cpu.Y) &&& 0xFFFF, s3)

/-- JMP (indirect) with the 6502 page-wrap bug. -/
def jmpIndirectAddr (s : Mach) : Nat × Mach :=
  let (ptr, s1) := fetchWord s
  let (lo, s2) := readMem s1 ptr
  let hiAddr := (ptr &&& 0xFF00) ||| ((ptr + 1) &&& 0x00FF)
  let (hi, s3) := readMem s2 hiAddr
  ((((hi &&& 0xFF) <<< 8) ||| (lo &&& 0xFF)) &&& 0xFFFF, s3)

/-- Branch: signed 8-bit displacement relative to the byte after the operand
(JS `(PC + rel) & 0xffff`, which wraps through negatives). -/
def branch (s : Mach) (cond : Bool) : Mach :=
  let (off, s1) := fetchByte s
  if !cond then s1
  else
    let rel : Int := if off < 0x80 then (off : Int) else (off : Int) - 0x100
    { s1 with cpu := { s1.cpu with PC := (((s1.cpu.PC : Int) + rel).emod 0x10000).toNat } }

/-- Binary ADC (decimal mode ignored as on the 2A03). -/
def opADC (s : Mach) (value : Nat) : Mach :=
  let a := s.cpu.A
  let cin := if s.cpu.getFlag Flags6502.Carry then 1 else 0
  let sum := a + value + cin
  let result := sum &&& 0xFF
  let c := s.cpu.setFlag Flags6502.Carry (0xFF < sum)
  let c := c.setFlag Flags6502.Overflow (((0xFF ^^^ (a ^^^ value)) &&& (a ^^^ result) &&& 0x80) != 0)
  let c := { c with A := result }
  setZN { s with cpu := c } result

/-- SBC implemented as ADC of the one's complement. -/
def opSBC (s : Mach) (value : Nat) : Mach := opADC s ((value ^^^ 0xFF) &&& 0xFF)

def opCMP (s : Mach) (reg value : Nat) : Mach :=
  let t := jsSub8 reg value
  let c := s.cpu.setFlag Flags6502.Carry (value ≤ reg)
  setZN { s with cpu := c } t

def opBIT (s : Mach) (value : Nat) : Mach :=
  let t := (s.cpu.A &&& value) &&& 0xFF
  let c := s.cpu.setFlag Flags6502.Zero (t == 0)
  let c := c.setFlag Flags6502.Negative (value &&& 0x80 != 0)
  let c := c.setFlag Flags6502.Overflow (value &&& 0x40 != 0)
  { s with cpu := c }

def aslA (s : Mach) : Mach :=
  let cbit := (s.cpu.A >>> 7) &&& 1
  let c := { s.cpu with A := (s.cpu.A <<< 1) &&& 0xFF }
  let c := c.setFlag Flags6502.Carry (cbit == 1)
  setZN { s with cpu := c } c.A

def lsrA (s : Mach) : Mach :=
  let cbit := s.cpu.A &&& 1
  let c := { s.cpu with A := (s.cpu.A >>> 1) &&& 0xFF }
  let c := c.setFlag Flags6502.Carry (cbit == 1)
  setZN { s with cpu := c } c.A

def rolA (s : Mach) : Mach :=
  let cin := if s.cpu.getFlag Flags6502.Carry then 1 else 0
  let newC := (s.cpu.A >>> 7) &&& 1
  let c := { s.cpu with A := ((s.cpu.A <<< 1) ||| cin) &&& 0xFF }
  let c := c.setFlag Flags6502.Carry (newC == 1)
  setZN { s with cpu := c } c.A

def rorA (s : Mach) : Mach :=
  let cin := if s.cpu.getFlag Flags6502.Carry then 1 else 0
  let newC := s.cpu.A &&& 1
  let c := { s.cpu with A := ((cin <<< 7) ||| (s.cpu.A >>> 1)) &&& 0xFF }
  let c := c.setFlag Flags6502.Carry (newC == 1)
  setZN { s with cpu := c } c.A

def aslM (s : Mach) (addr : Nat) : Mach :=
  let (v0, s1) := readMem s addr
  let v := v0 &&& 0xFF
  let cbit := (v >>> 7) &&& 1
  let r := (v <<< 1) &&& 0xFF
  let s2 := writeMem s1 addr r
  let c := s2.cpu.setFlag Flags6502.Carry (cbit == 1)
  setZN { s2 with cpu := c } r

def lsrM (s : Mach) (addr : Nat) : Mach :=
  let (v0, s1) := readMem s addr
  let v := v0 &&& 0xFF
  let cbit := v &&& 1
  let r := (v >>> 1) &&& 0xFF
  let s2 := writeMem s1 addr r
  let c := s2.cpu.setFlag Flags6502.Carry (cbit == 1)
  setZN { s2 with cpu := c } r

def rolM (s : Mach) (addr : Nat) : Mach :=
  let (v0, s1) := readMem s addr
  let v := v0 &&& 0xFF
  let cin := if s1.cpu.getFlag Flags6502.Carry then 1 else 0
  let newC := (v >>> 7) &&& 1
  let r := ((v <<< 1) ||| cin) &&& 0xFF
  let s2 := writeMem s1 addr r
  let c := s2.cpu.setFlag Flags6502.Carry (newC == 1)
  setZN { s2 with cpu := c } r

def rorM (s : Mach) (addr : Nat) : Mach :=
  let (v0, s1) := readMem s addr
  let v := v0 &&& 0xFF
  let cin := if s1.cpu.getFlag Flags6502.Carry then 1 else 0
  let newC := v &&& 1
  let r := ((cin <<< 7) ||| (v >>> 1)) &&& 0xFF
  let s2 := writeMem s1 addr r
  let c := s2.cpu.setFlag Flags6502.Carry (newC == 1)
  setZN { s2 with cpu := c } r

/-- Illegal SLO: ASL on memory then ORA with A (Carry from pre-shift bit 7). -/
def opSLO (s : Mach) (addr : Nat) : Mach :=
  let (v0, s1) := readMem s addr
  let v := v0 &&& 0xFF
  let carry := v &&& 0x80 != 0
  let shifted := (v <<< 1) &&& 0xFF
  let s2 := writeMem s1 addr shifted
  let c := s2.cpu.setFlag Flags6502.Carry carry
  let c := { c with A := (c.A ||| shifted) &&& 0xFF }
  setZN { s2 with cpu := c } c.A

def setAf (s : Mach) (v : Nat) : Mach := setZN { s with cpu := { s.cpu with A := v } } v

def setXf (s : Mach) (v : Nat) : Mach := setZN { s with cpu := { s.cpu with X := v } } v

def setYf (s : Mach) (v : Nat) : Mach := setZN { s with cpu := { s.cpu with Y := v } } v

/-- Read through an addressing mode. -/
def rdM (s : Mach) (am : Mach → Nat × Mach) : Nat × Mach :=
  let (a, s1) := am s
  readMem s1 a

/-- Store through an addressing mode. -/
def stM (s : Mach) (am : Mach → Nat × Mach) (v : Nat) : Mach :=
  let (a, s1) := am s
  writeMem s1 a v

/-- Read-modify-write INC on memory. -/
def incM (s : Mach) (am : Mach → Nat × Mach) : Mach :=
  let (a, s1) := am s
  let (v0, s2) := readMem s1 a
  let v := (v0 + 1) &&& 0xFF
  setZN (writeMem s2 a v) v

/-- Read-modify-write DEC on memory. -/
def decM (s : Mach) (am : Mach → Nat × Mach) : Mach :=
  let (a, s1) := am s
  let (v0, s2) := readMem s1 a
  let v := dec8 v0
  setZN (writeMem s2 a v) v

/-- Shared IRQ/BRK entry: push PC (hi, lo), push P (B=1 only for BRK, U=1
always), set InterruptDisable, load PC from `$FFFE/$FFFF`. -/
def Cpu6502.doIrqEntry (s : Mach) (isBrk : Bool) : Mach :=
  let s1 := push s ((s.cpu.PC >>> 8) &&& 0xFF)
  let s2 := push s1 (s1.cpu.PC &&& 0xFF)
  let toPush := ((s2.cpu.P ||| Flags6502.Unused) &&& (0xFF ^^^ Flags6502.Break)) |||
    (if isBrk then Flags6502.Break else 0)
  let s3 := push s2 toPush
  let s4 := { s3 with cpu := s3.cpu.setFlag Flags6502.InterruptDisable true }
  let (lo, s5) := readMem s4 0xFFFE
  let (hi, s6) := readMem s5 0xFFFF
  { s6 with cpu := { s6.cpu with PC := ((hi <<< 8) ||| lo) &&& 0xFFFF } }

/-- Reset: load PC from `$FFFC/$FFFD`, SP ← 0xFD, and OR InterruptDisable
and Unused into P (the other registers are left as they are). -/
def Cpu6502.reset (s : Mach) : Mach :=
  let (lo, s1) := readMem s 0xFFFC
  let (hi, s2) := readMem s1 0xFFFD
  { s2 with cpu := { s2.cpu with
      PC := ((hi <<< 8) ||| lo) &&& 0xFFFF,
      SP := 0xFD,
      P := s2.cpu.P ||| (Flags6502.Unused ||| Flags6502.InterruptDisable) } }

/-- NMI entry (vector `$FFFA/$FFFB`, pushes P with B=0 and U=1). -/
def Cpu6502.nmi (s : Mach) : Mach :=
  let s1 := push s ((s.cpu.PC >>> 8) &&& 0xFF)
  let s2 := push s1 (s1.cpu.PC &&& 0xFF)
  let pv := (s2.cpu.P &&& (0xFF ^^^ Flags6502.Break)) ||| Flags6502.Unused
  let s3 := push s2 pv
  let s4 := { s3 with cpu := s3.cpu.setFlag Flags6502.InterruptDisable true }
  let (lo, s5) := readMem s4 0xFFFA
  let (hi, s6) := readMem s5 0xFFFB
  { s6 with cpu := { s6.cpu with PC := ((hi <<< 8) ||| lo) &&& 0xFFFF } }

/-- IRQ entry: suppressed while InterruptDisable is set. -/
def Cpu6502.irq (s : Mach) : Mach :=
  if s.cpu.getFlag Flags6502.InterruptDisable then s else Cpu6502.doIrqEntry s false

/-- One CPU instruction (`Cpu6502.step`). The source returns no cycle count;
KIL/JAM and unknown opcodes throw. -/
def Cpu6502.step (s0 : Mach) : Except String Mach :=
  let (opcode, s) := fetchByte s0
  match opcode with
  | 0xA9 => let (v, s) := fetchByte s; .ok (setAf s v)
  | 0xA5 => let (v, s) := rdM s zpAddr; .ok (setAf s (v &&& 0xFF))
  | 0xB5 => let (v, s) := rdM s zpXAddr; .ok (setAf s (v &&& 0xFF))
  | 0xAD => let (v, s) := rdM s absAddr; .ok (setAf s (v &&& 0xFF))
  | 0xBD => let (v, s) := rdM s absXAddr; .ok (setAf s (v &&& 0xFF))
  | 0xB9 => let (v, s) := rdM s absYAddr; .ok (setAf s (v &&& 0xFF))
  | 0xA1 => let (v, s) := rdM s indXAddr; .ok (setAf s (v &&& 0xFF))
  | 0xB1 => let (v, s) := rdM s indYAddr; .ok (setAf s (v &&& 0xFF))
  | 0xA2 => let (v, s) := fetchByte s; .ok (setXf s v)
  | 0xA6 => let (v, s) := rdM s zpAddr; .ok (setXf s (v &&& 0xFF))
  | 0xB6 => let (v, s) := rdM s zpYAddr; .ok (setXf s (v &&& 0xFF))
  | 0xAE => let (v, s) := rdM s absAddr; .ok (setXf s (v &&& 0xFF))
  | 0xBE => let (v, s) := rdM s absYAddr; .ok (setXf s (v &&& 0xFF))
  | 0xA0 => let (v, s) := fetchByte s; .ok (setYf s v)
  | 0xA4 => let (v, s) := rdM s zpAddr; .ok (setYf s (v &&& 0xFF))
  | 0xB4 => let (v, s) := rdM s zpXAddr; .ok (setYf s (v &&& 0xFF))
  | 0xAC => let (v, s) := rdM s absAddr; .ok (setYf s (v &&& 0xFF))
  | 0xBC => let (v, s) := rdM s absXAddr; .ok (setYf s (v &&& 0xFF))
  | 0x85 => .ok (stM s zpAddr s.cpu.A)
  | 0x95 => .ok (stM s zpXAddr s.cpu.A)
  | 0x8D => .ok (stM s absAddr s.cpu.A)
  | 0x9D => .ok (stM s absXAddr s.cpu.A)
  | 0x99 => .ok (stM s absYAddr s.cpu.A)
  | 0x81 => .ok (stM s indXAddr s.cpu.A)
  | 0x91 => .ok (stM s indYAddr s.cpu.A)
  | 0x86 => .ok (stM s zpAddr s.cpu.X)
  | 0x96 => .ok (stM s zpYAddr s.cpu.X)
  | 0x8E => .ok (stM s absAddr s.cpu.X)
  | 0x84 => .ok (stM s zpAddr s.cpu.Y)
  | 0x94 => .ok (stM s zpXAddr s.cpu.Y)
  | 0x8C => .ok (stM s absAddr s.cpu.Y)
  | 0xAA => .ok (setXf s (s.cpu.A &&& 0xFF))
  | 0xA8 => .ok (setYf s (s.cpu.A &&& 0xFF))
  | 0x8A => .ok (setAf s (s.cpu.X &&& 0xFF))
  | 0x98 => .ok (setAf s (s.cpu.Y &&& 0xFF))
  | 0xBA => .ok (setXf s (s.cpu.SP &&& 0xFF))
  | 0x9A => .ok { s with cpu := { s.cpu with SP := s.cpu.X &&& 0xFF } }
  | 0x48 => .ok (push s s.cpu.A)
  | 0x68 => let (v, s) := pull s; .ok (setAf s (v &&& 0xFF))
  | 0x08 => .ok (push s (s.cpu.P ||| Flags6502.Break ||| Flags6502.Unused))
  | 0x28 => let (v, s) := pull s; .ok { s with cpu := { s.cpu with P := (v ||| Flags6502.Unused) &&& 0xFF } }
  | 0xE8 => .ok (setXf s ((s.cpu.X + 1) &&& 0xFF))
  | 0xC8 => .ok (setYf s ((s.cpu.Y + 1) &&& 0xFF))
  | 0xCA => .ok (setXf s (dec8 s.cpu.X))
  | 0x88 => .ok (setYf s (dec8 s.cpu.Y))
  | 0xE6 => .ok (incM s zpAddr)
  | 0xF6 => .ok (incM s zpXAddr)
  | 0xEE => .ok (incM s absAddr)
  | 0xFE => .ok (incM s absXAddr)
  | 0xC6 => .ok (decM s zpAddr)
  | 0xD6 => .ok (decM s zpXAddr)
  | 0xCE => .ok (decM s absAddr)
  | 0xDE => .ok (decM s absXAddr)
  | 0x29 => let (v, s) := fetchByte s; .ok (setAf s (s.cpu.A &&& v))
  | 0x25 => let (v, s) := rdM s zpAddr; .ok (setAf s (s.cpu.A &&& v))
  | 0x35 => let (v, s) := rdM s zpXAddr; .ok (setAf s (s.cpu.A &&& v))
  | 0x2D => let (v, s) := rdM s absAddr; .ok (setAf s (s.cpu.A &&& v))
  | 0x3D => let (v, s) := rdM s absXAddr; .ok (setAf s (s.cpu.A &&& v))
  | 0x39 => let (v, s) := rdM s absYAddr; .ok (setAf s (s.cpu.A &&& v))
  | 0x21 => let (v, s) := rdM s indXAddr; .ok (setAf s (s.cpu.A &&& v))
  | 0x31 => let (v, s) := rdM s indYAddr; .ok (setAf s (s.cpu.A &&& v))
  | 0x09 => let (v, s) := fetchByte s; .ok (setAf s (s.cpu.A ||| v))
  | 0x05 => let (v, s) := rdM s zpAddr; .ok (setAf s (s.cpu.A ||| v))
  | 0x15 => let (v, s) := rdM s zpXAddr; .ok (setAf s (s.cpu.A ||| v))
  | 0x0D => let (v, s) := rdM s absAddr; .ok (setAf s (s.cpu.A ||| v))
  | 0x1D => let (v, s) := rdM s absXAddr; .ok (setAf s (s.cpu.A ||| v))
  | 0x19 => let (v, s) := rdM s absYAddr; .ok (setAf s (s.cpu.A ||| v))
  | 0x01 => let (v, s) := rdM s indXAddr; .ok (setAf s (s.cpu.A ||| v))
  | 0x11 => let (v, s) := rdM s indYAddr; .ok (setAf s (s.cpu.A ||| v))
  | 0x49 => let (v, s) := fetchByte s; .ok (setAf s (s.cpu.A ^^^ v))
  | 0x45 => let (v, s) := rdM s zpAddr; .ok (setAf s (s.cpu.A ^^^ (v &&& 0xFF)))
  | 0x55 => let (v, s) := rdM s zpXAddr; .ok (setAf s (s.cpu.A ^^^ (v &&& 0xFF)))
  | 0x4D => let (v, s) := rdM s absAddr; .ok (setAf s (s.cpu.A ^^^ (v &&& 0xFF)))
  | 0x5D => let (v, s) := rdM s absXAddr; .ok (setAf s (s.cpu.A ^^^ (v &&& 0xFF)))
  | 0x59 => let (v, s) := rdM s absYAddr; .ok (setAf s (s.cpu.A ^^^ (v &&& 0xFF)))
  | 0x41 => let (v, s) := rdM s indXAddr; .ok (setAf s (s.cpu.A ^^^ (v &&& 0xFF)))
  | 0x51 => let (v, s) := rdM s indYAddr; .ok (setAf s (s.cpu.A ^^^ (v &&& 0xFF)))
  | 0x69 => let (v, s) := fetchByte s; .ok (opADC s v)
  | 0x65 => let (v, s) := rdM s zpAddr; .ok (opADC s (v &&& 0xFF))
  | 0x75 => let (v, s) := rdM s zpXAddr; .ok (opADC s (v &&& 0xFF))
  | 0x6D => let (v, s) := rdM s absAddr; .ok (opADC s (v &&& 0xFF))
  | 0x7D => let (v, s) := rdM s absXAddr; .ok (opADC s (v &&& 0xFF))
  | 0x79 => let (v, s) := rdM s absYAddr; .ok (opADC s (v &&& 0xFF))
  | 0x61 => let (v, s) := rdM s indXAddr; .ok (opADC s (v &&& 0xFF))
  | 0x71 => let (v, s) := rdM s indYAddr; .ok (opADC s (v &&& 0xFF))
  | 0xE9 => let (v, s) := fetchByte s; .ok (opSBC s v)
  | 0xE5 => let (v, s) := rdM s zpAddr; .ok (opSBC s (v &&& 0xFF))
  | 0xF5 => let (v, s) := rdM s zpXAddr; .ok (opSBC s (v &&& 0xFF))
  | 0xED => let (v, s) := rdM s absAddr; .ok (opSBC s (v &&& 0xFF))
  | 0xFD => let (v, s) := rdM s absXAddr; .ok (opSBC s (v &&& 0xFF))
  | 0xF9 => let (v, s) := rdM s absYAddr; .ok (opSBC s (v &&& 0xFF))
  | 0xE1 => let (v, s) := rdM s indXAddr; .ok (opSBC s (v &&& 0xFF))
  | 0xF1 => let (v, s) := rdM s indYAddr; .ok (opSBC s (v &&& 0xFF))
  | 0x24 => let (v, s) := rdM s zpAddr; .ok (opBIT s (v &&& 0xFF))
  | 0x2C => let (v, s) := rdM s absAddr; .ok (opBIT s (v &&& 0xFF))
  | 0xC9 => let (v, s) := fetchByte s; .ok (opCMP s s.cpu.A v)
  | 0xC5 => let (v, s) := rdM s zpAddr; .ok (opCMP s s.cpu.A (v &&& 0xFF))
  | 0xD5 => let (v, s) := rdM s zpXAddr; .ok (opCMP s s.cpu.A (v &&& 0xFF))
  | 0xCD => let (v, s) := rdM s absAddr; .ok (opCMP s s.cpu.A (v &&& 0xFF))
  | 0xDD => let (v, s) := rdM s absXAddr; .ok (opCMP s s.cpu.A (v &&& 0xFF))
  | 0xD9 => let (v, s) := rdM s absYAddr; .ok (opCMP s s.cpu.A (v &&& 0xFF))
  | 0xC1 => let (v, s) := rdM s indXAddr; .ok (opCMP s s.cpu.A (v &&& 0xFF))
  | 0xD1 => let (v, s) := rdM s indYAddr; .ok (opCMP s s.cpu.A (v &&& 0xFF))
  | 0xE0 => let (v, s) := fetchByte s; .ok (opCMP s s.cpu.X v)
  | 0xE4 => let (v, s) := rdM s zpAddr; .ok (opCMP s s.cpu.X (v &&& 0xFF))
  | 0xEC => let (v, s) := rdM s absAddr; .ok (opCMP s s.cpu.X (v &&& 0xFF))
  | 0xC0 => let (v, s) := fetchByte s; .ok (opCMP s s.cpu.Y v)
  | 0xC4 => let (v, s) := rdM s zpAddr; .ok (opCMP s s.cpu.Y (v &&& 0xFF))
  | 0xCC => let (v, s) := rdM s absAddr; .ok (opCMP s s.cpu.Y (v &&& 0xFF))
  | 0x0A => .ok (aslA s)
  | 0x06 => let (a, s) := zpAddr s; .ok (aslM s a)
  | 0x16 => let (a, s) := zpXAddr s; .ok (aslM s a)
  | 0x0E => let (a, s) := absAddr s; .ok (aslM s a)
  | 0x1E => let (a, s) := absXAddr s; .ok (aslM s a)
  | 0x4A => .ok (lsrA s)
  | 0x46 => let (a, s) := zpAddr s; .ok (lsrM s a)
  | 0x56 => let (a, s) := zpXAddr s; .ok (lsrM s a)
  | 0x4E => let (a, s) := absAddr s; .ok (lsrM s a)
  | 0x5E => let (a, s) := absXAddr s; .ok (lsrM s a)
  | 0x2A => .ok (rolA s)
  | 0x26 => let (a, s) := zpAddr s; .ok (rolM s a)
  | 0x36 => let (a, s) := zpXAddr s; .ok (rolM s a)
  | 0x2E => let (a, s) := absAddr s; .ok (rolM s a)
  | 0x3E => let (a, s) := absXAddr s; .ok (rolM s a)
  | 0x6A => .ok (rorA s)
  | 0x66 => let (a, s) := zpAddr s; .ok (rorM s a)
  | 0x76 => let (a, s) := zpXAddr s; .ok (rorM s a)
  | 0x6E => let (a, s) := absAddr s; .ok (rorM s a)
  | 0x7E => let (a, s) := absXAddr s; .ok (rorM s a)
  | 0x4C => let (a, s) := absAddr s; .ok { s with cpu := { s.cpu with PC := a } }
  | 0x6C => let (a, s) := jmpIndirectAddr s; .ok { s with cpu := { s.cpu with PC := a } }
  | 0x20 =>
    let (addr, s) := absAddr s
    let returnAddr := dec16 s.cpu.PC
    let s := push s ((returnAddr >>> 8) &&& 0xFF)
    let s := push s (returnAddr &&& 0xFF)
    .ok { s with cpu := { s.cpu with PC := addr } }
  | 0x60 =>
    let (lo, s) := pull s
    let (hi, s) := pull s
    .ok { s with cpu := { s.cpu with PC := (((hi <<< 8) ||| lo) + 1) &&& 0xFFFF } }
  | 0x40 =>
    let (p, s) := pull s
    let s := { s with cpu := { s.cpu with P := (p ||| Flags6502.Unused) &&& 0xFF } }
    let (lo, s) := pull s
    let (hi, s) := pull s
    .ok { s with cpu := { s.cpu with PC := ((hi <<< 8) ||| lo) &&& 0xFFFF } }
  | 0x90 => .ok (branch s (!s.cpu.getFlag Flags6502.Carry))
  | 0xB0 => .ok (branch s (s.cpu.getFlag Flags6502.Carry))
  | 0xF0 => .ok (branch s (s.cpu.getFlag Flags6502.Zero))
  | 0x30 => .ok (branch s (s.cpu.getFlag Flags6502.Negative))
  | 0xD0 => .ok (branch s (!s.cpu.getFlag Flags6502.Zero))
  | 0x10 => .ok (branch s (!s.cpu.getFlag Flags6502.Negative))
  | 0x50 => .ok (branch s (!s.cpu.getFlag Flags6502.Overflow))
  | 0x70 => .ok (branch s (s.cpu.getFlag Flags6502.Overflow))
  | 0x18 => .ok { s with cpu := s.cpu.setFlag Flags6502.Carry false }
  | 0x38 => .ok { s with cpu := s.cpu.setFlag Flags6502.Carry true }
  | 0x58 => .ok { s with cpu := s.cpu.setFlag Flags6502.InterruptDisable false }
  | 0x78 => .ok { s with cpu := s.cpu.setFlag Flags6502.InterruptDisable true }
  | 0xB8 => .ok { s with cpu := s.cpu.setFlag Flags6502.Overflow false }
  | 0xD8 => .ok { s with cpu := s.cpu.setFlag Flags6502.Decimal false }
  | 0xF8 => .ok { s with cpu := s.cpu.setFlag Flags6502.Decimal true }
  | 0x00 => .ok (Cpu6502.doIrqEntry s true)
  | 0xEA => .ok s
  | 0x07 => let (a, s) := zpAddr s; .ok (opSLO s a)
  | 0x17 => let (a, s) := zpXAddr s; .ok (opSLO s a)
  | 0x0F => let (a, s) := absAddr s; .ok (opSLO s a)
  | 0x1F => let (a, s) := absXAddr s; .ok (opSLO s a)
  | 0x1B => let (a, s) := absYAddr s; .ok (opSLO s a)
  | 0x03 => let (a, s) := indXAddr s; .ok (opSLO s a)
  | 0x13 => let (a, s) := indYAddr s; .ok (opSLO s a)
  | 0x1A | 0x3A | 0x5A | 0x7A | 0xDA | 0xFA => .ok s
  | 0x04 | 0x44 | 0x64 => let (_, s) := fetchByte s; .ok s
  | 0x80 | 0x82 | 0x89 | 0xC2 | 0xE2 => let (_, s) := fetchByte s; .ok s
  | 0x14 | 0x34 | 0x54 | 0x74 | 0xD4 | 0xF4 => let (_, s) := fetchByte s; .ok s
  | 0x0C => let (_, s) := fetchWord s; .ok s
  | 0x1C | 0x3C | 0x5C | 0x7C | 0xDC | 0xFC => let (_, s) := fetchWord s; .ok s
  | 0x02 | 0x12 | 0x22 | 0x32 | 0x42 | 0x52 | 0x62 | 0x72
  | 0x92 | 0xB2 | 0xD2 | 0xF2 => .error "KIL/JAM encontrado"
  | _ => .error "Opcode desconhecido"

/-! ## Driver — `main.ts`: fixed 6 PPU sub-steps per CPU step, NMI and
mapper-IRQ dispatch after every PPU sub-step. -/

/-- `PPU_STEPS_PER_CPU_STEP` from `main.ts` (an approximation: 6 PPU steps
per CPU step, with no per-instruction cycle counting). -/
def PPU_STEPS_PER_CPU_STEP : Nat := 6

/-- `serviceMapperIrq` of `main.ts`: only Mapper4 exposes `consumeIrq`. -/
def serviceMapperIrq (s : Mach) : Mach :=
  match s.mem.mapper with
  | some (Mapper.m4 m4s) => if m4s.consumeIrq then Cpu6502.irq s else s
  | _ => s

/-- One iteration of the driver's `ppuStepMany` loop: one PPU sub-step, then
NMI dispatch (edge-cleared via `clearNmi`), then mapper IRQ service. -/
def ppuStepOnce (s : Mach) : Mach :=
  let r := s.mem.ppu.step s.mem.mapper
  let s1 := { s with mem := { s.mem with ppu := r.1, mapper := r.2.1 } }
  let s2 :=
    if s1.mem.ppu.isNmiOccurred then
      let s' := Cpu6502.nmi s1
      { s' with mem := { s'.mem with ppu := s'.mem.ppu.clearNmi } }
    else s1
  serviceMapperIrq s2

def ppuStepMany (s : Mach) : Nat → Mach
  | 0 => s
  | n + 1 => ppuStepMany (ppuStepOnce s) n

/-- Global PPU sub-cycle position inside a frame:
`(scanline + 1) * 341 + cycle`, in `[0, 262*341)` for well-formed states. -/
def Ppu.tau (p : Ppu) : Int := (p.scanline + 1) * 341 + (p.cycle : Int)

/-- Iterate `Ppu.step` and accumulate the MMC3 IRQ-clock count. -/
def Ppu.stepN (p : Ppu) (mp : Option Mapper) : Nat → Ppu × Option Mapper × Nat
  | 0 => (p, mp, 0)
  | n + 1 =>
    let r := p.step mp
    let r2 := Ppu.stepN r.1 r.2.1 n
    (r2.1, r2.2.1, r.2.2 + r2.2.2)

/-- The 16 A12-low pattern reads of the synthesized scanline edge, at the
`Mapper4` level (same access pattern as `Ppu.step` issues). -/
def Mapper4State.synthLowReads (m : Mapper4State) : Mapper4State × Nat :=
  (List.range 16).foldl
    (fun acc i =>
      let r := Mapper4State.ppuRead acc.1 ((0x0000 + ((i * 2) &&& 0x0FFE)) &&& 0x1FFF)
      (r.2.1, acc.2 + (if r.2.2 then 1 else 0)))
    (m, 0)

/-- Deliver one synthesized A12 rising edge to an MMC3: 16 low pattern reads
followed by one read at `$1000`, returning the number of qualifying IRQ
clocks this produced. -/
def Mapper4State.deliverA12Edge (m : Mapper4State) : Mapper4State × Nat :=
  let (m1, n) := m.synthLowReads
  let r := m1.ppuRead 0x1000
  (r.2.1, n + (if r.2.2 then 1 else 0))

/-! ## Shared helper lemmas -/

theorem and255_eq_mod (n : Nat) : n &&& 255 = n % 256 :=
  Nat.and_pow_two_sub_one_eq_mod n 8

theorem and_ffff_eq_mod (n : Nat) : n &&& 0xFFFF = n % 0x10000 :=
  Nat.and_pow_two_sub_one_eq_mod n 16

theorem and255_and255 (n : Nat) : n &&& 255 &&& 255 = n &&& 255 := by
  have h : (255 &&& 255 : Nat) = 255 := by decide
  rw [Nat.and_assoc, h]

theorem dec8_lt (n : Nat) : dec8 n < 0x100 := by
  unfold dec8; rw [and255_eq_mod]; omega

theorem readFFFC_pure (m : Memory) : (m.read 0xFFFC).2 = m := by
  rcases hm : m.mapper with _ | mp <;> simp +decide [Memory.read, hm]

theorem readFFFD_pure (m : Memory) : (m.read 0xFFFD).2 = m := by
  rcases hm : m.mapper with _ | mp <;> simp +decide [Memory.read, hm]

/-- A `push` with SP below 0x100 writes into page 1 of internal RAM. -/
theorem push_ram (cst : Cpu6502) (ram : Nat → Nat) (p : Ppu) (mp : Option Mapper)
    (v : Nat) (hSP : cst.SP < 0x100) :
    push ⟨cst, Memory.mk ram p mp⟩ v =
      ⟨{ cst with SP := dec8 cst.SP },
       Memory.mk (upd ram (0x100 + cst.SP) (v &&& 0xFF)) p mp⟩ := by
  have hSPm : cst.SP &&& 0xFF = cst.SP := by rw [and255_eq_mod]; omega
  have hm : (0x100 + cst.SP) &&& 0xFFFF = 0x100 + cst.SP := by rw [and_ffff_eq_mod]; omega
  have hlt : 0x100 + cst.SP < 0x2000 := by omega
  have hmod : (0x100 + cst.SP) % 0x800 = 0x100 + cst.SP := by omega
  simp [push, writeMem, Memory.write, hSPm, hm, hlt, hmod, and255_and255]

/-! ## Claim scenarios and theorems -/

/-- MMC3 configured like Scenario C: reset, then `$C000=2`, `$C001`, `$E001`
(32 KiB PRG, 8 KiB CHR, horizontal mirroring). -/
def mmc3C3Start : Mapper4State :=
  let m := Mapper4State.new (fun _ => 0xEA) 0x8000 (fun _ => 0) 0x2000 Mirroring.Horizontal
  let m := m.reset
  let m := m.cpuWrite 0xC000 0x02
  let m := m.cpuWrite 0xC001 0x00
  m.cpuWrite 0xE001 0x00

def mmc3C3AfterEdge1 : Mapper4State := mmc3C3Start.deliverA12Edge.1

def mmc3C3AfterEdge2 : Mapper4State := mmc3C3AfterEdge1.deliverA12Edge.1

def mmc3C3AfterEdge3 : Mapper4State := mmc3C3AfterEdge2.deliverA12Edge.1

/-- C3: for a Mapper4 after reset, after writing `$C000=2`, `$C001`, `$E001`,
delivering qualifying A12 rising edges (each delivery is the synthesized
16-low-reads-then-`$1000` pattern and clocks the IRQ counter exactly once):
after the first edge the counter reloads to 2 and `consumeIrq()` is false;
after the second it is 1 and `consumeIrq()` is false; after the third it is 0
and `consumeIrq()` returns true and keeps returning true (also across further
edges) until `$E000` is written, after which it returns false. -/
theorem claim_C3 :
    mmc3C3Start.deliverA12Edge.2 = 1 ∧
    mmc3C3AfterEdge1.irqCounter = 2 ∧ mmc3C3AfterEdge1.consumeIrq = false ∧
    mmc3C3AfterEdge1.deliverA12Edge.2 = 1 ∧
    mmc3C3AfterEdge2.irqCounter = 1 ∧ mmc3C3AfterEdge2.consumeIrq = false ∧
    mmc3C3AfterEdge2.deliverA12Edge.2 = 1 ∧
    mmc3C3AfterEdge3.irqCounter = 0 ∧ mmc3C3AfterEdge3.consumeIrq = true ∧
    mmc3C3AfterEdge3.consumeIrq = true ∧
    mmc3C3AfterEdge3.deliverA12Edge.1.consumeIrq = true ∧
    (mmc3C3AfterEdge3.cpuWrite 0xE000 0x00).consumeIrq = false := by
  decide

/-- Round-trip of a palette write/read pair through the PPU memory space. -/
def paletteRoundTrip (p : Ppu) (mp : Option Mapper) (wa ra v : Nat) : Prop :=
  ((p.writePpuMemory mp wa v).1.readPpuMemory (p.writePpuMemory mp wa v).2.1 ra).1 = v

/-- C9: for every byte `v`, writing `v` at `$3F10` and reading `$3F00`
returns `v`, and likewise for `$3F14↔$3F04`, `$3F18↔$3F08`, `$3F1C↔$3F0C`. -/
theorem claim_C9 (p : Ppu) (mp : Option Mapper) (v : Nat) (hv : v < 0x100) :
    paletteRoundTrip p mp 0x3F10 0x3F00 v ∧
    paletteRoundTrip p mp 0x3F14 0x3F04 v ∧
    paletteRoundTrip p mp 0x3F18 0x3F08 v ∧
    paletteRoundTrip p mp 0x3F1C 0x3F0C v := by
  refine ⟨?_, ?_, ?_, ?_⟩ <;>
    · simp +decide [paletteRoundTrip, Ppu.writePpuMemory, Ppu.readPpuMemory,
        Ppu.resolvePaletteAddr, upd, and255_eq_mod]
      omega

theorem claim_C9_witness :
    (0xAB : Nat) < 0x100 ∧
    (paletteRoundTrip Ppu.new none 0x3F10 0x3F00 0xAB ∧
     paletteRoundTrip Ppu.new none 0x3F14 0x3F04 0xAB ∧
     paletteRoundTrip Ppu.new none 0x3F18 0x3F08 0xAB ∧
     paletteRoundTrip Ppu.new none 0x3F1C 0x3F0C 0xAB) :=
  ⟨by decide, claim_C9 Ppu.new none 0xAB (by decide)⟩

/-- C10: every `readRegister` access that resolves to PPUSTATUS (`$2002`)
clears the internal `nmiOccurred` flag (so a latched, undelivered VBlank NMI
is suppressed — `isNmiOccurred` is false afterwards), clears the `w` toggle,
clears the VBlank bit, and the returned value is masked with `0xE0`, so its
low five bits are zero. -/
theorem claim_C10 (p : Ppu) (mp : Option Mapper) (addr : Nat)
    (h : addr &&& 0x0007 = 2) :
    (p.readRegister mp addr).1 = p.registers.ppustatus &&& 0xE0 ∧
    (p.readRegister mp addr).2.1.registers.nmiOccurred = false ∧
    (p.readRegister mp addr).2.1.isNmiOccurred = false ∧
    (p.readRegister mp addr).2.1.registers.w = false ∧
    (p.readRegister mp addr).2.1.registers.ppustatus = p.registers.ppustatus &&& 0x7F ∧
    (p.readRegister mp addr).1 &&& 0x1F = 0 := by
  have h0 : (0xE0 &&& 0x1F : Nat) = 0 := by decide
  simp +decide [Ppu.readRegister, Ppu.isNmiOccurred, h, Nat.and_assoc, h0, Nat.and_zero]

theorem claim_C10_witness :
    (0x2002 &&& 0x0007 : Nat) = 2 ∧
    (((Ppu.new.readRegister none 0x2002).1 = Ppu.new.registers.ppustatus &&& 0xE0) ∧
     ((Ppu.new.readRegister none 0x2002).2.1.registers.nmiOccurred = false) ∧
     ((Ppu.new.readRegister none 0x2002).2.1.isNmiOccurred = false) ∧
     ((Ppu.new.readRegister none 0x2002).2.1.registers.w = false) ∧
     ((Ppu.new.readRegister none 0x2002).2.1.registers.ppustatus =
       Ppu.new.registers.ppustatus &&& 0x7F) ∧
     ((Ppu.new.readRegister none 0x2002).1 &&& 0x1F = 0)) := by
  refine ⟨by decide, ?_⟩
  have h := claim_C10 Ppu.new none 0x2002 (by decide)
  exact ⟨h.1, h.2.1, h.2.2.1, h.2.2.2.1, h.2.2.2.2.1, h.2.2.2.2.2⟩

/-- Scenario B of the spec, run against the bus as implemented: fill
`$0200..$02FF` with the values `i`, then write `0x02` to `$4014`. -/
def dmaScenarioMemory : Memory :=
  let m0 := Memory.new
  let m1 := (List.range 256).foldl (fun m i => m.write (0x0200 + i) i) m0
  m1.write 0x4014 0x02

/-- C2 (code bug): `Memory.write` ignores the whole `$4000-$4017` range, so a
write of any page byte to `$4014` leaves the machine state — in particular
the PPU's OAM — completely unchanged; in Scenario B, `oam[i]` stays 0 instead
of becoming `i` (shown here at i = 2). The repository's own DMA test
(`describe('DMA $4014 (OAMDMA) …')`) expects the copy to happen. -/
theorem claim_C2 :
    (∀ (m : Memory) (page : Nat), m.write 0x4014 page = m) ∧
    dmaScenarioMemory.ppu.oam 2 = 0 ∧
    dmaScenarioMemory.ram 0x202 = 2 := by
  refine ⟨fun m page => ?_, by decide, by decide⟩
  simp +decide [Memory.write]

/-- C5 (code bug): the bus never consults the controllers: a CPU read of
`$4016` always returns 0 and leaves the state unchanged, and a CPU write to
`$4016` is ignored, for every machine state — even though the
`Controller` class itself implements the serial protocol correctly: for any
button state, a strobe high-then-low followed by eight reads returns the bits
in order A, B, Select, Start, Up, Down, Left, Right. -/
theorem claim_C5 :
    (∀ m : Memory, m.read 0x4016 = (0, m)) ∧
    (∀ (m : Memory) (v : Nat), m.write 0x4016 v = m) ∧
    (∀ (a b sel st u d l r sb : Bool) (si lb : Nat),
      ((((Controller.mk sb si lb ⟨a, b, sel, st, u, d, l, r⟩).writeStrobe 1).writeStrobe 0).readBits 8).1 =
        [if a then 1 else 0, if b then 1 else 0, if sel then 1 else 0,
         if st then 1 else 0, if u then 1 else 0, if d then 1 else 0,
         if l then 1 else 0, if r then 1 else 0]) := by
  refine ⟨fun m => ?_, fun m v => ?_, fun a b sel st u d l r sb si lb => ?_⟩
  · simp +decide [Memory.read]
  · simp +decide [Memory.write]
  · simp +decide [Controller.writeStrobe, Controller.packButtons]
    revert a b sel st u d l r
    decide

/-- A PPU one sub-cycle before the wrap to the pre-render line, with VBlank
(bit 7), sprite-0 hit (bit 6) and sprite overflow (bit 5) all set. -/
def c8PrewrapPpu : Ppu :=
  { Ppu.new with
    scanline := 260, cycle := 340,
    registers := { PpuRegisters.new with ppustatus := 0xE0 } }

/-- C8 (code bug): on the step that wraps the scanline counter back to -1,
`Ppu.step` clears only the VBlank bit: starting from PPUSTATUS = `0xE0`, the
post-wrap status is `0x60` — sprite-0 hit (bit 6) and sprite overflow (bit 5)
survive, contradicting the claim (and the repository's own sprite-0 test,
which expects bit 6 to clear at pre-render). -/
theorem claim_C8 :
    (c8PrewrapPpu.step none).1.scanline = -1 ∧
    (c8PrewrapPpu.step none).1.registers.ppustatus = 0x60 ∧
    ((0x60 : Nat) &&& 0x40 = 0x40 ∧ (0x60 : Nat) &&& 0x20 = 0x20) := by
  decide

/-- C6 counterexample: `Cpu6502.reset` neither clears A/X/Y nor sets P to
exactly `InterruptDisable | Unused` — with prior A = 0x42 and P = 0xFF the
post-reset state keeps them (P only gets the two bits OR'ed in). -/
theorem claim_C6_cex :
    ¬ ((Cpu6502.reset ⟨{ Cpu6502.new with A := 0x42, P := 0xFF }, Memory.new⟩).cpu.P = 0x24 ∧
       (Cpu6502.reset ⟨{ Cpu6502.new with A := 0x42, P := 0xFF }, Memory.new⟩).cpu.A = 0) := by
  decide

/-- C6 (amended): for every prior CPU state and memory, after `reset()` the
program counter equals the little-endian word at `$FFFC/$FFFD`, SP = 0xFD,
`InterruptDisable` and `Unused` are OR'ed into P (the other P bits are kept),
A, X and Y are left unchanged, and the memory is unchanged. -/
theorem claim_C6 (c : Cpu6502) (m : Memory) :
    Cpu6502.reset ⟨c, m⟩ =
      ⟨{ c with PC := (((m.read 0xFFFD).1 <<< 8) ||| (m.read 0xFFFC).1) &&& 0xFFFF,
                SP := 0xFD, P := c.P ||| 0x24 }, m⟩ := by
  have h36 : (Flags6502.Unused ||| Flags6502.InterruptDisable : Nat) = 0x24 := by decide
  simp [Cpu6502.reset, readMem, readFFFC_pure, readFFFD_pure, h36]

/-- A machine whose RAM is all zero with the PC inside RAM: the next opcode
fetch yields 0x00 = BRK. -/
def c7CexMach : Mach := ⟨{ Cpu6502.new with PC := 0x0200 }, Memory.new⟩

/-- C7 counterexample: BRK at `$0200` pushes the return PC `$0201` (opcode
address + 1) — high byte 0x02 at `$01FD` and low byte 0x01 at `$01FC` — not
`$0202` as the claim ("opcode address + 2") requires. -/
theorem claim_C7_cex :
    (Cpu6502.step c7CexMach).toOption.map (fun s => s.mem.ram 0x1FD) = some 0x02 ∧
    (Cpu6502.step c7CexMach).toOption.map (fun s => s.mem.ram 0x1FC) = some 0x01 ∧
    (0x01 : Nat) ≠ 0x02 := by
  decide

/-- C7 (amended): executing opcode 0x00 (BRK) consumes no extra byte: it
pushes the PC one past the opcode (high byte then low byte), pushes P with
Break and Unused forced to 1 (`((P | 0x20) & 0xEF) | 0x10`), sets
InterruptDisable, and loads PC from the little-endian vector at
`$FFFE/$FFFF` (here via a 32 KiB NROM mapper). -/
theorem claim_C7 (c : Cpu6502) (ram : Nat → Nat) (p : Ppu) (st : Mapper0State)
    (hlen : st.prgLen = 0x8000)
    (hPC : c.PC < 0x2000)
    (hop : ram (c.PC % 0x800) % 256 = 0)
    (hSP : c.SP < 0x100) :
    Cpu6502.step ⟨c, Memory.mk ram p (some (.m0 st))⟩ =
      Except.ok
        ⟨{ c with
            PC := (((st.prgRom 0x7FFF % 256) <<< 8) ||| (st.prgRom 0x7FFE % 256)) &&& 0xFFFF,
            SP := dec8 (dec8 (dec8 c.SP)),
            P := c.P ||| Flags6502.InterruptDisable },
         Memory.mk
           (upd (upd (upd ram
               (0x100 + c.SP) (((c.PC + 1) >>> 8) &&& 0xFF))
               (0x100 + dec8 c.SP) ((c.PC + 1) &&& 0xFF))
               (0x100 + dec8 (dec8 c.SP)) ((((c.P ||| 0x20) &&& 0xEF) ||| 0x10) &&& 0xFF))
           p (some (.m0 st))⟩ := by
  have hPCmask : c.PC &&& 0xFFFF = c.PC := by rw [and_ffff_eq_mod]; omega
  have hPC1 : (c.PC + 1) &&& 0xFFFF = c.PC + 1 := by rw [and_ffff_eq_mod]; omega
  have hopcode : ram (c.PC % 0x800) % 256 &&& 0xFF = 0 := by rw [and255_eq_mod]; omega
  have hfetch : fetchByte ⟨c, Memory.mk ram p (some (.m0 st))⟩ =
      (0, ⟨{ c with PC := c.PC + 1 }, Memory.mk ram p (some (.m0 st))⟩) := by
    simp [fetchByte, readMem, Memory.read, hPCmask, hPC1, hPC, hopcode]
  have hxor : (0xFF ^^^ Flags6502.Break : Nat) = 0xEF := by decide
  have hv1 : (0xFFFE &&& 0xFFFF : Nat) = 0xFFFE := by decide
  have hv2 : (0xFFFF &&& 0xFFFF : Nat) = 0xFFFF := by decide
  have hv3 : ((0xFFFE - 0x8000 : Nat) &&& 0x7FFF) = 0x7FFE := by decide
  have hv4 : ((0xFFFF - 0x8000 : Nat) &&& 0x7FFF) = 0x7FFF := by decide
  simp only [Cpu6502.step, hfetch, Cpu6502.doIrqEntry]
  simp only [push_ram, hSP, dec8_lt]
  simp +decide [readMem, Memory.read, Mapper.cpuRead, Mapper0State.cpuRead, hlen,
    Cpu6502.setFlag, hPC1, and255_and255, hxor, hv1, hv2, hv3, hv4,
    Flags6502.InterruptDisable, Flags6502.Unused, Flags6502.Break]

def c7WitnessCpu : Cpu6502 := { Cpu6502.new with PC := 0x0300, P := 0x81 }

def c7WitnessRam : Nat → Nat := fun _ => 0

def c7WitnessSt : Mapper0State :=
  Mapper0State.new (fun _ => 0x34) 0x8000 (fun _ => 0) 0x2000 Mirroring.Horizontal

theorem claim_C7_witness :
    (c7WitnessSt.prgLen = 0x8000 ∧ c7WitnessCpu.PC < 0x2000 ∧
     c7WitnessRam (c7WitnessCpu.PC % 0x800) % 256 = 0 ∧ c7WitnessCpu.SP < 0x100) ∧
    (Cpu6502.step ⟨c7WitnessCpu, Memory.mk c7WitnessRam Ppu.new (some (.m0 c7WitnessSt))⟩ =
      Except.ok
        ⟨{ c7WitnessCpu with
            PC := (((c7WitnessSt.prgRom 0x7FFF % 256) <<< 8) |||
              (c7WitnessSt.prgRom 0x7FFE % 256)) &&& 0xFFFF,
            SP := dec8 (dec8 (dec8 c7WitnessCpu.SP)),
            P := c7WitnessCpu.P ||| Flags6502.InterruptDisable },
         Memory.mk
           (upd (upd (upd c7WitnessRam
               (0x100 + c7WitnessCpu.SP) (((c7WitnessCpu.PC + 1) >>> 8) &&& 0xFF))
               (0x100 + dec8 c7WitnessCpu.SP) ((c7WitnessCpu.PC + 1) &&& 0xFF))
               (0x100 + dec8 (dec8 c7WitnessCpu.SP))
               ((((c7WitnessCpu.P ||| 0x20) &&& 0xEF) ||| 0x10) &&& 0xFF))
           Ppu.new (some (.m0 c7WitnessSt))⟩) ∧
    ((((c7WitnessCpu.P ||| 0x20) &&& 0xEF) ||| 0x10) &&& 0xFF) &&& 0x30 = 0x30 :=
  ⟨⟨by decide, by decide, by decide, by decide⟩,
   claim_C7 c7WitnessCpu c7WitnessRam Ppu.new c7WitnessSt
     (by decide) (by decide) (by decide) (by decide),
   by decide⟩


/-! ## C4: the synthesized per-scanline A12 edge -/

theorem m4_read_low_state (m : Mapper4State) (a : Nat)
    (h1 : (a &&& 0x3FFF) &&& 0x1000 = 0) (h2 : a &&& 0x3FFF < 0x2000) :
    (Mapper.ppuRead (.m4 m) a).2.1 =
      .m4 { m with a12Cooldown := m.a12Cooldown - 1,
                   a12LowStreak := m.a12LowStreak + 1, lastA12 := 0 } := by
  have hcd : (if 0 < m.a12Cooldown then m.a12Cooldown - 1 else m.a12Cooldown)
      = m.a12Cooldown - 1 := by split <;> omega
  simp [Mapper.ppuRead, Mapper4State.ppuRead, Mapper4State.trackA12, h1, h2, hcd]
  try split <;> rfl

theorem m4_read_low_clk (m : Mapper4State) (a : Nat)
    (h1 : (a &&& 0x3FFF) &&& 0x1000 = 0) (h2 : a &&& 0x3FFF < 0x2000) :
    (Mapper.ppuRead (.m4 m) a).2.2 = false := by
  simp [Mapper.ppuRead, Mapper4State.ppuRead, Mapper4State.trackA12, h1, h2]
  try split <;> rfl

theorem synthLow_fold (l : List Nat) :
    (∀ i ∈ l,
      (((i * 2) &&& 0x0FFE) &&& 0x1FFF) &&& 0x3FFF &&& 0x1000 = 0 ∧
      (((i * 2) &&& 0x0FFE) &&& 0x1FFF) &&& 0x3FFF < 0x2000) →
    ∀ (m : Mapper4State) (n : Nat),
      l.foldl Ppu.synthLowStep (Mapper.m4 m, n) =
        (Mapper.m4 { m with a12Cooldown := m.a12Cooldown - l.length,
                            a12LowStreak := m.a12LowStreak + l.length,
                            lastA12 := if l.isEmpty then m.lastA12 else 0 }, n) := by
  induction l with
  | nil => intro _ m n; simp
  | cons a l ih =>
    intro hl m n
    have ha := hl a (List.mem_cons_self a l)
    have hstep : Ppu.synthLowStep (Mapper.m4 m, n) a =
        (Mapper.m4 { m with a12Cooldown := m.a12Cooldown - 1,
                            a12LowStreak := m.a12LowStreak + 1, lastA12 := 0 }, n) := by
      simp [Ppu.synthLowStep, m4_read_low_state _ _ ha.1 ha.2,
            m4_read_low_clk _ _ ha.1 ha.2]
    rw [List.foldl_cons, hstep,
        ih (fun i hi => hl i (List.mem_cons_of_mem a hi)) _ n]
    simp [Mapper4State.mk.injEq]
    omega

def a12EdgeMapper (m : Mapper4State) : Mapper4State :=
  { ({ m with a12Cooldown := m.a12Cooldown - 16, a12LowStreak := m.a12LowStreak + 16, lastA12 := 0 } : Mapper4State).clockIrqCounter with
    a12Cooldown := 8, a12LowStreak := 0, lastA12 := 1 }

theorem synthLowReads_m4 (m : Mapper4State) :
    Ppu.synthLowReads (Mapper.m4 m) =
      (Mapper.m4 { m with a12Cooldown := m.a12Cooldown - 16, a12LowStreak := m.a12LowStreak + 16, lastA12 := 0 }, 0) := by
  have h := synthLow_fold (List.range 16) (by decide) m 0
  simpa [Ppu.synthLowReads] using h

theorem m4_read_high_state (m : Mapper4State) (h8 : 8 ≤ m.a12LowStreak)
    (h0 : m.a12Cooldown = 0) (hlast : m.lastA12 = 0) :
    (Mapper.ppuRead (.m4 m) 0x1000).2.1 =
      .m4 { m.clockIrqCounter with a12Cooldown := 8, a12LowStreak := 0, lastA12 := 1 } := by
  simp +decide [Mapper.ppuRead, Mapper4State.ppuRead, Mapper4State.trackA12,
    h0, hlast, h8]
  try split <;> rfl

theorem m4_read_high_clk (m : Mapper4State) (h8 : 8 ≤ m.a12LowStreak)
    (h0 : m.a12Cooldown = 0) (hlast : m.lastA12 = 0) :
    (Mapper.ppuRead (.m4 m) 0x1000).2.2 = true := by
  simp +decide [Mapper.ppuRead, Mapper4State.ppuRead, Mapper4State.trackA12,
    h0, hlast, h8]
  try split <;> rfl

theorem step_first (p : Ppu) (m : Mapper4State)
    (hs0 : (0:Int) ≤ p.scanline) (hs1 : p.scanline ≤ (239:Int))
    (hbg : p.registers.ppumask &&& 0x08 ≠ 0)
    (hdone : p.a12EdgeDoneThisScanline = false)
    (hcyc : p.cycle + 1 < 341)
    (hcd : m.a12Cooldown ≤ 16) :
    Ppu.step p (some (.m4 m)) =
      ({ p with cycle := p.cycle + 1, a12EdgeDoneThisScanline := true },
       some (.m4 (a12EdgeMapper m)), 1) := by
  have h8 : (8:Nat) ≤ m.a12LowStreak + 16 := by omega
  have h0 : m.a12Cooldown - 16 = 0 := by omega
  have hst := m4_read_high_state
      { m with a12Cooldown := m.a12Cooldown - 16, a12LowStreak := m.a12LowStreak + 16, lastA12 := 0 }
      h8 h0 rfl
  have hck := m4_read_high_clk
      { m with a12Cooldown := m.a12Cooldown - 16, a12LowStreak := m.a12LowStreak + 16, lastA12 := 0 }
      h8 h0 rfl
  have hnw : ¬ (341 ≤ p.cycle + 1) := by omega
  simp [Ppu.step, Ppu.stepSynth, hs0, hs1, hbg, hdone, hnw, synthLowReads_m4, hst, hck, a12EdgeMapper]

theorem step_mid (p : Ppu) (mp : Option Mapper)
    (hdone : p.a12EdgeDoneThisScanline = true) (hcyc : p.cycle + 1 < 341) :
    Ppu.step p mp = ({ p with cycle := p.cycle + 1 }, mp, 0) := by
  have hnw : ¬ (341 ≤ p.cycle + 1) := by omega
  simp [Ppu.step, Ppu.stepSynth, hdone, hnw]

theorem step_wrap_edges (p : Ppu) (mp : Option Mapper)
    (hdone : p.a12EdgeDoneThisScanline = true) :
    (Ppu.step p mp).2.2 = 0 := by
  simp [Ppu.step, Ppu.stepSynth, hdone]
  try split <;> rfl

theorem stepN_done_tail (mp : Option Mapper) : ∀ (k : Nat) (p : Ppu),
    p.a12EdgeDoneThisScanline = true → p.cycle + k = 341 →
    (Ppu.stepN p mp k).2.2 = 0 := by
  intro k
  induction k with
  | zero => intro p _ _; rfl
  | succ k ih =>
    intro p hdone hcyc
    by_cases hlt : p.cycle + 1 < 341
    · simp only [Ppu.stepN]
      rw [step_mid p mp hdone hlt]
      simp [ih { p with cycle := p.cycle + 1 } hdone
        (by show p.cycle + 1 + k = 341; omega)]
    · have hk : k = 0 := by omega
      subst hk
      simp only [Ppu.stepN]
      simp [step_wrap_edges p mp hdone]

theorem stepWrap_mask (p : Ppu) :
    (Ppu.stepWrap p).registers.ppumask = p.registers.ppumask := by
  simp only [Ppu.stepWrap, Ppu.copyHorizontalBits, Ppu.copyVerticalBits]
  repeat' split
  all_goals rfl

theorem step_bgoff (p : Ppu) (mp : Option Mapper)
    (h : p.registers.ppumask &&& 0x08 = 0) :
    (Ppu.step p mp).2.2 = 0 ∧ (Ppu.step p mp).2.1 = mp ∧
    (Ppu.step p mp).1.registers.ppumask = p.registers.ppumask := by
  refine ⟨?_, ?_, ?_⟩ <;>
    simp [Ppu.step, Ppu.stepSynth, h, stepWrap_mask] <;>
    split <;>
    simp [stepWrap_mask]

theorem stepN_bgoff (n : Nat) : ∀ (p : Ppu) (mp : Option Mapper),
    p.registers.ppumask &&& 0x08 = 0 → (Ppu.stepN p mp n).2.2 = 0 := by
  induction n with
  | zero => intro p mp _; rfl
  | succ n ih =>
    intro p mp h
    obtain ⟨h1, h2, h3⟩ := step_bgoff p mp h
    simp only [Ppu.stepN]
    rw [h1, ih (Ppu.step p mp).1 (Ppu.step p mp).2.1 (by rw [h3]; exact h)]

/-- C4: while background rendering is enabled (PPUMASK bit 3 set) and a
Mapper4 is attached (with its A12 cooldown in the reachable range, at most
16), running `Ppu.step` across one full visible scanline (341 sub-cycles
starting at cycle 0 of a scanline in 0..239 with the per-scanline edge not
yet delivered) produces exactly one qualifying A12 rising edge (MMC3 IRQ
clock); and with background rendering disabled no step ever produces an
edge. -/
theorem stepN_succ (p : Ppu) (mp : Option Mapper) (n : Nat) :
    Ppu.stepN p mp (n + 1) =
      ((Ppu.stepN (p.step mp).1 (p.step mp).2.1 n).1,
       (Ppu.stepN (p.step mp).1 (p.step mp).2.1 n).2.1,
       (p.step mp).2.2 + (Ppu.stepN (p.step mp).1 (p.step mp).2.1 n).2.2) := rfl

theorem claim_C4 :
    (∀ (p : Ppu) (m : Mapper4State),
      (0:Int) ≤ p.scanline → p.scanline ≤ (239:Int) → p.cycle = 0 →
      p.a12EdgeDoneThisScanline = false →
      p.registers.ppumask &&& 0x08 ≠ 0 → m.a12Cooldown ≤ 16 →
      (Ppu.stepN p (some (.m4 m)) 341).2.2 = 1) ∧
    (∀ (p : Ppu) (mp : Option Mapper) (n : Nat),
      p.registers.ppumask &&& 0x08 = 0 → (Ppu.stepN p mp n).2.2 = 0) := by
  constructor
  · intro p m hs0 hs1 hc hdone hbg hcd
    rw [show (341:Nat) = 340 + 1 from rfl, stepN_succ]
    rw [step_first p m hs0 hs1 hbg hdone (by omega) hcd]
    dsimp only
    rw [stepN_done_tail _ 340 _ rfl (by show p.cycle + 1 + 340 = 341; omega)]
  · exact fun p mp n h => stepN_bgoff n p mp h

def c4WitnessPpu : Ppu :=
  { Ppu.new with registers := { PpuRegisters.new with ppumask := 0x08 } }

def c4WitnessM4 : Mapper4State :=
  (Mapper4State.new (fun _ => 0xEA) 0x8000 (fun _ => 0) 0x2000 Mirroring.Horizontal).reset

theorem claim_C4_witness :
    ((0:Int) ≤ c4WitnessPpu.scanline ∧ c4WitnessPpu.scanline ≤ (239:Int) ∧
      c4WitnessPpu.cycle = 0 ∧ c4WitnessPpu.a12EdgeDoneThisScanline = false ∧
      c4WitnessPpu.registers.ppumask &&& 0x08 ≠ 0 ∧ c4WitnessM4.a12Cooldown ≤ 16 ∧
      Ppu.new.registers.ppumask &&& 0x08 = 0) ∧
    (Ppu.stepN c4WitnessPpu (some (.m4 c4WitnessM4)) 341).2.2 = 1 ∧
    (Ppu.stepN Ppu.new (some (.m4 c4WitnessM4)) 341).2.2 = 0 :=
  ⟨by decide,
   claim_C4.1 c4WitnessPpu c4WitnessM4 (by decide) (by decide) rfl rfl
     (by decide) (by decide),
   claim_C4.2 Ppu.new (some (.m4 c4WitnessM4)) 341 (by decide)⟩

/-! ## C1: the driver's fixed PPU advance per CPU step -/

theorem readFFFA_pure (m : Memory) : (m.read 0xFFFA).2 = m := by
  rcases hm : m.mapper with _ | mp <;> simp +decide [Memory.read, hm]

theorem readFFFB_pure (m : Memory) : (m.read 0xFFFB).2 = m := by
  rcases hm : m.mapper with _ | mp <;> simp +decide [Memory.read, hm]

theorem readFFFE_pure (m : Memory) : (m.read 0xFFFE).2 = m := by
  rcases hm : m.mapper with _ | mp <;> simp +decide [Memory.read, hm]

theorem readFFFF_pure (m : Memory) : (m.read 0xFFFF).2 = m := by
  rcases hm : m.mapper with _ | mp <;> simp +decide [Memory.read, hm]

theorem push_mem_ppu (s : Mach) (v : Nat) : (push s v).mem.ppu = s.mem.ppu := by
  have h1 : (0x100 + (s.cpu.SP &&& 0xFF)) &&& 0xFFFF = 0x100 + (s.cpu.SP &&& 0xFF) := by
    rw [and255_eq_mod, and_ffff_eq_mod]; omega
  have h2 : 0x100 + (s.cpu.SP &&& 0xFF) < 0x2000 := by rw [and255_eq_mod]; omega
  simp [push, writeMem, Memory.write, h1, h2]

theorem doIrqEntry_mem_ppu (s : Mach) (b : Bool) :
    (Cpu6502.doIrqEntry s b).mem.ppu = s.mem.ppu := by
  simp [Cpu6502.doIrqEntry, readMem, push_mem_ppu, readFFFE_pure, readFFFF_pure]

theorem nmi_mem_ppu (s : Mach) : (Cpu6502.nmi s).mem.ppu = s.mem.ppu := by
  simp [Cpu6502.nmi, readMem, push_mem_ppu, readFFFA_pure, readFFFB_pure]

theorem irq_mem_ppu (s : Mach) : (Cpu6502.irq s).mem.ppu = s.mem.ppu := by
  unfold Cpu6502.irq
  split
  · rfl
  · exact doIrqEntry_mem_ppu s false

theorem clearNmi_tau (p : Ppu) : p.clearNmi.tau = p.tau := rfl

theorem clearNmi_scanline (p : Ppu) : p.clearNmi.scanline = p.scanline := rfl

theorem clearNmi_cycle (p : Ppu) : p.clearNmi.cycle = p.cycle := rfl

theorem stepSynth_fst_cycle (p : Ppu) (mp : Option Mapper) :
    (Ppu.stepSynth p mp).1.cycle = p.cycle := by
  simp only [Ppu.stepSynth]
  repeat' split
  all_goals rfl

theorem stepSynth_fst_scanline (p : Ppu) (mp : Option Mapper) :
    (Ppu.stepSynth p mp).1.scanline = p.scanline := by
  simp only [Ppu.stepSynth]
  repeat' split
  all_goals rfl

theorem stepWrap_cycle (p : Ppu) : (Ppu.stepWrap p).cycle = 0 := by
  simp only [Ppu.stepWrap, Ppu.copyHorizontalBits, Ppu.copyVerticalBits]
  repeat' split
  all_goals rfl

theorem stepWrap_scanline (p : Ppu) :
    (Ppu.stepWrap p).scanline =
      if (261:Int) ≤ p.scanline + 1 then (-1:Int) else p.scanline + 1 := by
  simp only [Ppu.stepWrap, Ppu.copyHorizontalBits, Ppu.copyVerticalBits]
  repeat' split
  all_goals dsimp only at *

theorem step_fst (p : Ppu) (mp : Option Mapper) :
    (Ppu.step p mp).1 =
      if 341 ≤ p.cycle + 1 then
        Ppu.stepWrap (Ppu.stepSynth { p with cycle := p.cycle + 1 } mp).1
      else (Ppu.stepSynth { p with cycle := p.cycle + 1 } mp).1 := by
  simp only [Ppu.step]
  rw [stepSynth_fst_cycle]
  split <;> rfl

theorem step_tau (p : Ppu) (mp : Option Mapper)
    (h1 : (-1:Int) ≤ p.scanline) (h2 : p.scanline ≤ (260:Int)) (h3 : p.cycle ≤ 340) :
    (Ppu.step p mp).1.tau = (p.tau + 1) % 89342 ∧
    (-1:Int) ≤ (Ppu.step p mp).1.scanline ∧
    (Ppu.step p mp).1.scanline ≤ (260:Int) ∧
    (Ppu.step p mp).1.cycle ≤ 340 := by
  have hsc := stepSynth_fst_scanline { p with cycle := p.cycle + 1 } mp
  have hcy := stepSynth_fst_cycle { p with cycle := p.cycle + 1 } mp
  dsimp only at hsc hcy
  rw [step_fst]
  by_cases hw : 341 ≤ p.cycle + 1
  · rw [if_pos hw]
    simp only [Ppu.tau, stepWrap_cycle, stepWrap_scanline, hsc, hcy]
    split <;> omega
  · rw [if_neg hw]
    simp only [Ppu.tau, hsc, hcy]
    omega

theorem ppuStepOnce_ppu (s : Mach) :
    (ppuStepOnce s).mem.ppu = (s.mem.ppu.step s.mem.mapper).1 ∨
    (ppuStepOnce s).mem.ppu = (s.mem.ppu.step s.mem.mapper).1.clearNmi := by
  simp only [ppuStepOnce, serviceMapperIrq, Ppu.isNmiOccurred]
  repeat' split
  all_goals simp only [irq_mem_ppu, nmi_mem_ppu]
  all_goals simp

theorem ppuStepOnce_tau (s : Mach)
    (h1 : (-1:Int) ≤ s.mem.ppu.scanline) (h2 : s.mem.ppu.scanline ≤ (260:Int))
    (h3 : s.mem.ppu.cycle ≤ 340) :
    (ppuStepOnce s).mem.ppu.tau = (s.mem.ppu.tau + 1) % 89342 ∧
    (-1:Int) ≤ (ppuStepOnce s).mem.ppu.scanline ∧
    (ppuStepOnce s).mem.ppu.scanline ≤ (260:Int) ∧
    (ppuStepOnce s).mem.ppu.cycle ≤ 340 := by
  obtain ⟨ht, hb1, hb2, hb3⟩ := step_tau s.mem.ppu s.mem.mapper h1 h2 h3
  rcases ppuStepOnce_ppu s with h | h <;> rw [h]
  · exact ⟨ht, hb1, hb2, hb3⟩
  · simpa only [clearNmi_tau, clearNmi_scanline, clearNmi_cycle] using ⟨ht, hb1, hb2, hb3⟩

/-- C1 (refuting the claimed contract): in this version of the code
`Cpu6502.step` returns no cycle count (its TypeScript return type is
`void`, embedded here as `Except String Mach` with no cycle component), and
the driver advances the PPU by the fixed `PPU_STEPS_PER_CPU_STEP = 6`
sub-cycles after every CPU instruction, whatever instruction was executed:
one driver iteration advances the PPU's global sub-cycle position `tau` by
exactly 6 (mod 89342) from every well-formed machine state, rather than by
3·c for the executed instruction's cycle count c. -/
theorem claim_C1 (s : Mach)
    (h1 : (-1:Int) ≤ s.mem.ppu.scanline) (h2 : s.mem.ppu.scanline ≤ (260:Int))
    (h3 : s.mem.ppu.cycle ≤ 340) :
    PPU_STEPS_PER_CPU_STEP = 6 ∧
    (ppuStepMany s PPU_STEPS_PER_CPU_STEP).mem.ppu.tau =
      (s.mem.ppu.tau + 6) % 89342 := by
  obtain ⟨t1, a1, b1, c1⟩ := ppuStepOnce_tau s h1 h2 h3
  obtain ⟨t2, a2, b2, c2⟩ := ppuStepOnce_tau (ppuStepOnce s) a1 b1 c1
  obtain ⟨t3, a3, b3, c3⟩ :=
    ppuStepOnce_tau (ppuStepOnce (ppuStepOnce s)) a2 b2 c2
  obtain ⟨t4, a4, b4, c4⟩ :=
    ppuStepOnce_tau (ppuStepOnce (ppuStepOnce (ppuStepOnce s))) a3 b3 c3
  obtain ⟨t5, a5, b5, c5⟩ :=
    ppuStepOnce_tau (ppuStepOnce (ppuStepOnce (ppuStepOnce (ppuStepOnce s)))) a4 b4 c4
  obtain ⟨t6, a6, b6, c6⟩ :=
    ppuStepOnce_tau (ppuStepOnce (ppuStepOnce (ppuStepOnce (ppuStepOnce (ppuStepOnce s)))))
      a5 b5 c5
  refine ⟨rfl, ?_⟩
  have hm : ppuStepMany s PPU_STEPS_PER_CPU_STEP =
      ppuStepOnce (ppuStepOnce (ppuStepOnce (ppuStepOnce (ppuStepOnce (ppuStepOnce s))))) := rfl
  rw [hm, t6, t5, t4, t3, t2, t1]
  omega

theorem claim_C1_witness :
    ((-1:Int) ≤ (Mach.mk Cpu6502.new Memory.new).mem.ppu.scanline ∧
     (Mach.mk Cpu6502.new Memory.new).mem.ppu.scanline ≤ (260:Int) ∧
     (Mach.mk Cpu6502.new Memory.new).mem.ppu.cycle ≤ 340) ∧
    (PPU_STEPS_PER_CPU_STEP = 6 ∧
     (ppuStepMany (Mach.mk Cpu6502.new Memory.new) PPU_STEPS_PER_CPU_STEP).mem.ppu.tau =
       ((Mach.mk Cpu6502.new Memory.new).mem.ppu.tau + 6) % 89342) :=
  ⟨⟨by decide, by decide, by decide⟩,
   claim_C1 (Mach.mk Cpu6502.new Memory.new) (by decide) (by decide) (by decide)⟩
end NesEmu
